import Mathlib

/-!
Verification development for the Guided Component Architect retry/validation
loop (sources: `main.py`, `validator.py`, `generator.py`).

Modelling conventions (shallow embedding of the Python sources):

* A Python `str` is modelled as `PyStr := List Nat`, a sequence of Unicode
  code points.  Python strings may hold lone surrogates, so the model does
  not restrict the code points; hypotheses add well-formedness where the
  behaviour depends on it.
* Parsed JSON documents are modelled by the inductive `Json`.  JSON numbers
  are kept as exact decimals `m * 10 ^ e` (`Json.num`); IEEE-754 rounding of
  `float` literals (overflow to `inf`, underflow to `0.0`) is not modelled —
  truthiness of a parsed number is `m ≠ 0` in the model.
* Exceptions that can escape the Python code are modelled with
  `Except PyErr`; the payload remembers the exception class.
* `str.lower` is modelled on the ASCII range (`A`-`Z` mapped to `a`-`z`);
  full Unicode case mapping of other code points is not modelled.
* `str.strip` uses the ASCII whitespace code points plus NEL and NBSP;
  other Unicode space code points are not modelled.
* `json.loads` is modelled by a fuel-bounded recursive-descent parser
  (`loads`) following CPython's scanner: fenced strings, `\uXXXX` escapes
  with surrogate-pair recombination, the `NUMBER_RE` grammar, `NaN`,
  `Infinity` and `-Infinity` constants, strict rejection of raw control
  characters in strings.  The fuel `2 * length + 8` dominates the number of
  scanner steps; CPython's recursion limit on deeply nested documents is
  not modelled.
-/

namespace GCA

/-- A Python string: a sequence of Unicode code points. -/
abbrev PyStr := List Nat

/-- Code points of a Lean string literal (all valid scalars). -/
def pyOfString (s : String) : PyStr := s.data.map Char.toNat

/-- A parsed JSON value, as produced by `json.loads`.  Numbers are exact
decimals `m * 10 ^ e` with an `isFloat` flag; objects keep the raw member
list in parse order (duplicate keys possible, last one wins on lookup). -/
inductive Json where
  | str (s : PyStr)
  | num (isFloat : Bool) (m : Int) (e : Int)
  | bool (b : Bool)
  | null
  | nan
  | inf (neg : Bool)
  | arr (xs : List Json)
  | obj (kvs : List (PyStr × Json))

/-- Exception classes that can escape the modelled Python code. -/
inductive PyErr where
  | typeError
  | attributeError
  | keyError
  deriving DecidableEq

/-- Python truthiness of a JSON value (`not code_dict[part]` etc.).
For numbers the exact decimal value is used (see module comment). -/
def Json.truthy : Json → Bool
  | .str s => !s.isEmpty
  | .num _ m _ => m != 0
  | .bool b => b
  | .null => false
  | .nan => true
  | .inf _ => true
  | .arr xs => !xs.isEmpty
  | .obj kvs => !kvs.isEmpty

/-- Python substring test `needle in hay` (contiguous subsequence). -/
def containsSub (hay needle : PyStr) : Bool :=
  match hay with
  | [] => needle.isEmpty
  | _ :: rest => needle.isPrefixOf hay || containsSub rest needle

/-- Last-binding-wins lookup in a raw JSON member list (Python `dict`
construction overwrites earlier duplicate keys). -/
def lookupLast (kvs : List (PyStr × Json)) (key : PyStr) : Option Json :=
  match kvs with
  | [] => none
  | (k, v) :: rest =>
    match lookupLast rest key with
    | some r => some r
    | none => if k = key then some v else none

/-- Python `key in value` for the values `validate` meets: membership for
dicts, element equality for lists, substring for strings, `TypeError`
otherwise (e.g. `"html" in 5`). -/
def pyIn (key : PyStr) : Json → Except PyErr Bool
  | .obj kvs => .ok (kvs.any (fun kv => kv.1 = key))
  | .arr xs => .ok (xs.any (fun x => match x with | .str t => t = key | _ => false))
  | .str t => .ok (containsSub t key)
  | _ => .error .typeError

/-- Python `value[key]` with a string key: dict lookup, `TypeError` on
strings/lists/others (`"html"["html"]` raises). -/
def pyGetItem (v : Json) (key : PyStr) : Except PyErr Json :=
  match v with
  | .obj kvs =>
    match lookupLast kvs key with
    | some x => .ok x
    | none => .error .keyError
  | _ => .error .typeError

/-- Python `value.get(key, default)`: only dicts have `.get`
(`AttributeError` otherwise). -/
def dictGet (v : Json) (key : PyStr) (dflt : Json) : Except PyErr Json :=
  match v with
  | .obj kvs => .ok ((lookupLast kvs key).getD dflt)
  | _ => .error .attributeError

/-- Python `a + b` for the value shapes reachable in the validator:
string/string and list/list concatenate, every other combination raises
`TypeError`.  (Numeric addition is unreachable there and not modelled.) -/
def pyAdd : Json → Json → Except PyErr Json
  | .str a, .str b => .ok (.str (a ++ b))
  | .arr a, .arr b => .ok (.arr (a ++ b))
  | _, _ => .error .typeError

/-- `str.lower` on one code point, ASCII range (see module comment). -/
def lowerCp (c : Nat) : Nat := if 65 ≤ c ∧ c ≤ 90 then c + 32 else c

/-- `str.lower` on a string. -/
def pyLower (s : PyStr) : PyStr := s.map lowerCp

/-- Python `value.lower()`: only strings have `.lower`. -/
def pyLowerVal : Json → Except PyErr PyStr
  | .str s => .ok (pyLower s)
  | _ => .error .attributeError

/-- Python `value.count(ch)` for a one-code-point pattern: only strings
have `.count` (`AttributeError` on e.g. `5 .count`). -/
def pyCountChar : Json → Nat → Except PyErr Nat
  | .str s, c => .ok (s.count c)
  | _, _ => .error .attributeError

/-- Whitespace for Python `str.strip`: ASCII whitespace and separators,
NEL and NBSP (see module comment). -/
def pySpace (c : Nat) : Bool :=
  (9 ≤ c && c ≤ 13) || (28 ≤ c && c ≤ 31) || c == 32 || c == 133 || c == 160

/-- Python `str.strip()`. -/
def pyStrip (s : PyStr) : PyStr :=
  ((s.dropWhile pySpace).reverse.dropWhile pySpace).reverse

/-!  `re.sub(r"```json\n?|\n?```", "", raw_json)` from `validator.py`:
scan left to right; at each position the regex alternation first tries
```` ```json ```` with an optional trailing newline, then an optional
newline followed by ```` ``` ````. -/

/-- One pass of the fence-stripping substitution, with `96 = '\x60'`,
`106 115 111 110 = "json"`, `10 = '\n'`; the alternatives are tried in
the regex's order at each position.  The fuel (always sufficient at
`length + 1`, since each step consumes at least one code point) only
makes the recursion structural. -/
def fenceSubAux : Nat → List Nat → List Nat
  | 0, s => s
  | _ + 1, [] => []
  | f + 1, c :: rest =>
    if [96, 96, 96, 106, 115, 111, 110, 10].isPrefixOf (c :: rest) then
      fenceSubAux f ((c :: rest).drop 8)
    else if [96, 96, 96, 106, 115, 111, 110].isPrefixOf (c :: rest) then
      fenceSubAux f ((c :: rest).drop 7)
    else if [10, 96, 96, 96].isPrefixOf (c :: rest) then
      fenceSubAux f ((c :: rest).drop 4)
    else if [96, 96, 96].isPrefixOf (c :: rest) then
      fenceSubAux f ((c :: rest).drop 3)
    else c :: fenceSubAux f rest

/-- `re.sub(r"```json\n?|\n?```", "", raw_json)`. -/
def fenceSub (s : List Nat) : List Nat :=
  fenceSubAux (s.length + 1) s

/-! ## The JSON scanner (`json.loads`) -/

/-- JSON inter-token whitespace (exactly space, tab, newline, return). -/
def jsonWs (c : Nat) : Bool := c == 32 || c == 9 || c == 10 || c == 13

/-- Skip JSON whitespace. -/
def skipWs (s : List Nat) : List Nat := s.dropWhile jsonWs

/-- Value of a hex digit code point (`0-9`, `a-f`, `A-F`); `16` signals
"not a hex digit". -/
def hexValN (c : Nat) : Nat :=
  if 48 ≤ c ∧ c ≤ 57 then c - 48
  else if 97 ≤ c ∧ c ≤ 102 then c - 87
  else if 65 ≤ c ∧ c ≤ 70 then c - 55
  else 16

/-- Decode a short string escape (`\" \\ \/ \b \f \n \r \t`);
`0x110000` signals an invalid escape character. -/
def escDecode (e : Nat) : Nat :=
  if e = 34 then 34
  else if e = 92 then 92
  else if e = 47 then 47
  else if e = 98 then 8
  else if e = 102 then 12
  else if e = 110 then 10
  else if e = 114 then 13
  else if e = 116 then 9
  else 0x110000

/-- Tail-recursive list length (same value as `List.length`; used for the
scanner fuels so that the fuel evaluates without deep recursion). -/
def lenAux (n : Nat) : List Nat → Nat
  | [] => n
  | _ :: rest => lenAux (n + 1) rest

/-- Read four hex digits (`\uXXXX` escapes): the value and the rest. -/
def readHex4 (s : List Nat) : Option (Nat × List Nat) :=
  match s with
  | a :: b :: c :: d :: r =>
    if hexValN a < 16 ∧ hexValN b < 16 ∧ hexValN c < 16 ∧ hexValN d < 16 then
      some (((hexValN a * 16 + hexValN b) * 16 + hexValN c) * 16 + hexValN d, r)
    else none
  | _ => none

/-- Peek for a `\uXXXX` escape carrying a low surrogate (`DC00`-`DFFF`)
right after a high one (CPython's surrogate-pair recombination). -/
def readLowSur (s : List Nat) : Option (Nat × List Nat) :=
  match s with
  | e2 :: u2 :: r =>
    if e2 = 92 ∧ u2 = 117 then
      match readHex4 r with
      | none => none
      | some mr => if 0xDC00 ≤ mr.1 ∧ mr.1 ≤ 0xDFFF then some mr else none
    else none
  | _ => none

/-- Scan a JSON string body (opening quote already consumed): returns the
decoded code points and the rest of the input.  `\uXXXX` escapes recombine
surrogate pairs like CPython's `scanstring`; lone surrogates are kept; raw
control characters are rejected (strict mode).  The decoded prefix is
accumulated in reverse; the fuel (sufficient whenever it exceeds the
number of decoded code points, each step consuming at least one input
code point) only makes the recursion structural. -/
def parseStrAux : Nat → PyStr → List Nat → Option (PyStr × List Nat)
  | 0, _, _ => none
  | f + 1, acc, s =>
    match s with
    | [] => none
    | c :: rest =>
      if c = 34 then some (acc.reverse, rest)
      else if c = 92 then
        match rest with
        | [] => none
        | e :: r1 =>
          if e = 117 then
            match readHex4 r1 with
            | none => none
            | some nr =>
              if 0xD800 ≤ nr.1 ∧ nr.1 ≤ 0xDBFF then
                match readLowSur nr.2 with
                | none => parseStrAux f (nr.1 :: acc) nr.2
                | some mr =>
                  parseStrAux f ((0x10000 + (nr.1 - 0xD800) * 0x400 + (mr.1 - 0xDC00)) :: acc)
                    mr.2
              else parseStrAux f (nr.1 :: acc) nr.2
          else
            if escDecode e < 0x110000 then parseStrAux f (escDecode e :: acc) r1 else none
      else if c < 32 then none
      else parseStrAux f (c :: acc) rest

/-- The low-surrogate filter of `readLowSur`, factored over the result of
`readHex4` so rewriting can proceed one definitional step at a time. -/
def lowCheck (hx : Option (Nat × List Nat)) : Option (Nat × List Nat) :=
  match hx with
  | none => none
  | some mr => if 0xDC00 ≤ mr.1 ∧ mr.1 ≤ 0xDFFF then some mr else none

/-- Continuation of `parseStrAux` after a high surrogate `\uXXXX`, factored
over the result of `readLowSur`. -/
def psaLow (f : Nat) (acc : PyStr) (n : Nat) (lw : Option (Nat × List Nat))
    (r2 : List Nat) : Option (PyStr × List Nat) :=
  match lw with
  | none => parseStrAux f (n :: acc) r2
  | some mr => parseStrAux f ((0x10000 + (n - 0xD800) * 0x400 + (mr.1 - 0xDC00)) :: acc) mr.2

/-- Continuation of `parseStrAux` after a `\u` prefix, factored over the
result of `readHex4`. -/
def psaEsc (f : Nat) (acc : PyStr) (hx : Option (Nat × List Nat)) :
    Option (PyStr × List Nat) :=
  match hx with
  | none => none
  | some nr =>
    if 0xD800 ≤ nr.1 ∧ nr.1 ≤ 0xDBFF then psaLow f acc nr.1 (readLowSur nr.2) nr.2
    else parseStrAux f (nr.1 :: acc) nr.2

/-- Take a maximal run of decimal digits. -/
def takeDigits : List Nat → (List Nat × List Nat)
  | [] => ([], [])
  | c :: rest =>
    if 48 ≤ c ∧ c ≤ 57 then
      let p := takeDigits rest
      (c :: p.1, p.2)
    else ([], c :: rest)

/-- Decimal value of a digit run. -/
def digitsToNat (ds : List Nat) : Nat := ds.foldl (fun acc c => acc * 10 + (c - 48)) 0

/-- Scan an optional fraction part (`.` with at least one digit,
otherwise nothing is consumed). -/
def fracScan : List Nat → List Nat × List Nat
  | [] => ([], [])
  | c :: r =>
    if c = 46 then
      let p := takeDigits r
      if p.1.isEmpty then ([], c :: r) else (p.1, p.2)
    else ([], c :: r)

/-- Scan an optional exponent part (`e`/`E`, optional sign, at least one
digit, otherwise nothing is consumed): `(hasExp, expNeg, digits, rest)`. -/
def expScan : List Nat → Bool × Bool × List Nat × List Nat
  | [] => (false, false, [], [])
  | c :: r =>
    if c = 101 ∨ c = 69 then
      match r with
      | [] => (false, false, [], c :: r)
      | s0 :: r2 =>
        if s0 = 43 then
          let p := takeDigits r2
          if p.1.isEmpty then (false, false, [], c :: r) else (true, false, p.1, p.2)
        else if s0 = 45 then
          let p := takeDigits r2
          if p.1.isEmpty then (false, false, [], c :: r) else (true, true, p.1, p.2)
        else
          let p := takeDigits r
          if p.1.isEmpty then (false, false, [], c :: r) else (true, false, p.1, p.2)
    else (false, false, [], c :: r)

/-- Finish scanning a number after its integer digits: optional fraction
and exponent, exactly CPython's `NUMBER_RE`. -/
def finishNum (neg : Bool) (intDs : List Nat) (s : List Nat) : Option (Json × List Nat) :=
  let fr := fracScan s
  let ex := expScan fr.2
  let mNat := digitsToNat (intDs ++ fr.1)
  let m : Int := if neg then -(mNat : Int) else (mNat : Int)
  let expv : Int :=
    (if ex.2.1 then -(digitsToNat ex.2.2.1 : Int) else (digitsToNat ex.2.2.1 : Int)) -
      (fr.1.length : Int)
  let isFloat := !fr.1.isEmpty || ex.1
  some (Json.num isFloat m expv, ex.2.2.2)

/-- Scan a number (first char is `-` or a digit): integer part is a single
`0` or a nonzero digit followed by digits. -/
def parseNum (s : List Nat) : Option (Json × List Nat) :=
  match s with
  | [] => none
  | c0 :: r0 =>
    if c0 = 45 then
      match r0 with
      | [] => none
      | c :: rest =>
        if c = 48 then finishNum true [48] rest
        else if 49 ≤ c ∧ c ≤ 57 then
          let ds := takeDigits rest
          finishNum true (c :: ds.1) ds.2
        else none
    else
      if c0 = 48 then finishNum false [48] r0
      else if 49 ≤ c0 ∧ c0 ≤ 57 then
        let ds := takeDigits r0
        finishNum false (c0 :: ds.1) ds.2
      else none

mutual

/-- Scan one JSON value at the head of the input (no leading whitespace),
one step of CPython's `scan_once`.  The fuel only bounds recursion. -/
def parseVal : Nat → List Nat → Option (Json × List Nat)
  | 0, _ => none
  | f + 1, s =>
    match s with
    | [] => none
    | c :: rest =>
      if c = 34 then
        match parseStrAux (lenAux 0 rest + 1) [] rest with
        | none => none
        | some p => some (Json.str p.1, p.2)
      else if c = 123 then parseMembers f (skipWs rest) []
      else if c = 91 then parseItems f (skipWs rest) []
      else if c = 116 then
        if [114, 117, 101].isPrefixOf rest then some (Json.bool true, rest.drop 3) else none
      else if c = 102 then
        if [97, 108, 115, 101].isPrefixOf rest then some (Json.bool false, rest.drop 4)
        else none
      else if c = 110 then
        if [117, 108, 108].isPrefixOf rest then some (Json.null, rest.drop 3) else none
      else if c = 78 then
        if [97, 78].isPrefixOf rest then some (Json.nan, rest.drop 2) else none
      else if c = 73 then
        if [110, 102, 105, 110, 105, 116, 121].isPrefixOf rest then
          some (Json.inf false, rest.drop 7)
        else none
      else if c = 45 then
        if [73, 110, 102, 105, 110, 105, 116, 121].isPrefixOf rest then
          some (Json.inf true, rest.drop 8)
        else parseNum (c :: rest)
      else if 48 ≤ c ∧ c ≤ 57 then parseNum (c :: rest)
      else none

/-- Scan object members (input just after `{` or after a comma, leading
whitespace skipped; `}` closes the object only directly after `{`). -/
def parseMembers : Nat → List Nat → List (PyStr × Json) → Option (Json × List Nat)
  | 0, _, _ => none
  | f + 1, s, acc =>
    match s with
    | [] => none
    | c :: r =>
      if c = 125 ∧ acc.isEmpty then some (Json.obj [], r)
      else if c = 34 then
        match parseStrAux (lenAux 0 r + 1) [] r with
        | none => none
        | some kp =>
          match skipWs kp.2 with
          | [] => none
          | c2 :: r2 =>
            if c2 = 58 then
              match parseVal f (skipWs r2) with
              | none => none
              | some vp =>
                match skipWs vp.2 with
                | [] => none
                | c3 :: r3 =>
                  if c3 = 44 then parseMembers f (skipWs r3) (acc ++ [(kp.1, vp.1)])
                  else if c3 = 125 then some (Json.obj (acc ++ [(kp.1, vp.1)]), r3)
                  else none
            else none
      else none

/-- Scan array items (input just after `[` or after a comma, leading
whitespace skipped; `]` closes the array only directly after `[`). -/
def parseItems : Nat → List Nat → List Json → Option (Json × List Nat)
  | 0, _, _ => none
  | f + 1, s, acc =>
    match s with
    | [] => none
    | c :: r =>
      if c = 93 ∧ acc.isEmpty then some (Json.arr [], r)
      else
        match parseVal f (c :: r) with
        | none => none
        | some vp =>
          match skipWs vp.2 with
          | [] => none
          | c2 :: r2 =>
            if c2 = 44 then parseItems f (skipWs r2) (acc ++ [vp.1])
            else if c2 = 93 then some (Json.arr (acc ++ [vp.1]), r2)
            else none

end

/-- Continuation of `parseVal` on a string value, factored over the
result of the string scan (one definitional step at a time, as for
`psaEsc`). -/
def pvStr (o : Option (PyStr × List Nat)) : Option (Json × List Nat) :=
  match o with
  | none => none
  | some p => some (Json.str p.1, p.2)

/-- Continuation of `parseMembers` after one `"key": value` member,
factored over the input following the value. -/
def pmAfterVal (f : Nat) (acc : List (PyStr × Json)) (k : PyStr) (j : Json)
    (s3 : List Nat) : Option (Json × List Nat) :=
  match skipWs s3 with
  | [] => none
  | c3 :: r3 =>
    if c3 = 44 then parseMembers f (skipWs r3) (acc ++ [(k, j)])
    else if c3 = 125 then some (Json.obj (acc ++ [(k, j)]), r3)
    else none

/-- Continuation of `parseMembers` after a member's key and colon,
factored over the result of the value scan. -/
def pmVal (f : Nat) (acc : List (PyStr × Json)) (k : PyStr)
    (o : Option (Json × List Nat)) : Option (Json × List Nat) :=
  match o with
  | none => none
  | some vp => pmAfterVal f acc k vp.1 vp.2

/-- Continuation of `parseMembers` after a member's key, factored over
the input following the key. -/
def pmAfterKey (f : Nat) (acc : List (PyStr × Json)) (k : PyStr)
    (s2 : List Nat) : Option (Json × List Nat) :=
  match skipWs s2 with
  | [] => none
  | c2 :: r2 => if c2 = 58 then pmVal f acc k (parseVal f (skipWs r2)) else none

/-- Continuation of `parseMembers` at a member's opening quote, factored
over the result of the key scan. -/
def pmKey (f : Nat) (acc : List (PyStr × Json))
    (o : Option (PyStr × List Nat)) : Option (Json × List Nat) :=
  match o with
  | none => none
  | some kp => pmAfterKey f acc kp.1 kp.2

/-- `json.loads`: skip whitespace, scan one value, and require only
whitespace to remain.  `none` models `json.JSONDecodeError`. -/
def loads (s : PyStr) : Option Json :=
  let s1 := skipWs s
  match parseVal (2 * lenAux 0 s1 + 8) s1 with
  | none => none
  | some p => if (skipWs p.2).isEmpty then some p.1 else none

/-! ## The design system

`generator.py` loads `design-system.json` (an external config file; the
spec's data model: a `tokens` mapping from token names to string values,
plus `rules` that the validation logic never reads).  The token mapping is
modelled directly as an association list of strings; `rules` is dropped as
unused. -/

/-- `tokens.get(key, default)` on the design-token mapping. -/
def toksGet (tokens : List (PyStr × PyStr)) (key dflt : PyStr) : PyStr :=
  match tokens.find? (fun kv => kv.1 = key) with
  | some kv => kv.2
  | none => dflt

/-! ## `validator.py` — `CodeValidator` -/

namespace CodeValidator

/-- One iteration of `for part in ["html", "typescript"]`: the test
`part not in code_dict or not code_dict[part]` with Python's
short-circuit, appending `"Missing or empty component part: <part>"`. -/
def requiredPart (code_dict : Json) (part : String) : Except PyErr (List PyStr) := do
  let present ← pyIn (pyOfString part) code_dict
  if !present then
    return [pyOfString ("Missing or empty component part: " ++ part)]
  else
    let v ← pyGetItem code_dict (pyOfString part)
    if !v.truthy then
      return [pyOfString ("Missing or empty component part: " ++ part)]
    else
      return []

/-- The `"css" not in code_dict` check. -/
def cssCheck (code_dict : Json) : Except PyErr (List PyStr) := do
  let present ← pyIn (pyOfString "css") code_dict
  if !present then return [pyOfString "Missing component part: css"] else return []

/-- The whole required-part stage (lines 20–24 of `validator.py`). -/
def requiredErrors (code_dict : Json) : Except PyErr (List PyStr) := do
  let e1 ← requiredPart code_dict "html"
  let e2 ← requiredPart code_dict "typescript"
  let e3 ← cssCheck code_dict
  return e1 ++ e2 ++ e3

/-- `_check_syntax` for one key: `content = code_dict.get(key, "")`, then
curly-brace and parenthesis counts. -/
def syntaxErrsFor (code_dict : Json) (key : String) : Except PyErr (List PyStr) := do
  let content ← dictGet code_dict (pyOfString key) (Json.str [])
  let nOpen ← pyCountChar content 123
  let nClose ← pyCountChar content 125
  let e1 :=
    if nOpen ≠ nClose then [pyOfString ("Unbalanced curly braces in " ++ key)] else []
  let nLp ← pyCountChar content 40
  let nRp ← pyCountChar content 41
  let e2 :=
    if nLp ≠ nRp then [pyOfString ("Unbalanced parentheses in " ++ key)] else []
  return e1 ++ e2

/-- `CodeValidator._check_syntax` (`for key in ["typescript", "css"]`). -/
def check_syntax (code_dict : Json) : Except PyErr (List PyStr) := do
  let a ← syntaxErrsFor code_dict "typescript"
  let b ← syntaxErrsFor code_dict "css"
  return a ++ b

/-- The design-token violation message
`f"Design Token Violation: Primary color '{primary_color}' was not used."`. -/
def dtvMsg (primary_color : PyStr) : PyStr :=
  pyOfString "Design Token Violation: Primary color \x27" ++ primary_color ++
    pyOfString "\x27 was not used."

/-- `CodeValidator._check_design_compliance`. -/
def check_design_compliance (tokens : List (PyStr × PyStr)) (code_dict : Json) :
    Except PyErr (List PyStr) := do
  let primary_color := pyLower (toksGet tokens (pyOfString "primary-color") [])
  let h ← dictGet code_dict (pyOfString "html") (Json.str [])
  let c ← dictGet code_dict (pyOfString "css") (Json.str [])
  let sum ← pyAdd h c
  let full_code ← pyLowerVal sum
  if !primary_color.isEmpty && !containsSub full_code primary_color then
    return [dtvMsg primary_color]
  else
    return []

/-- The parse-failure message. -/
def invalidJsonMsg : PyStr := pyOfString "Invalid JSON format or non-JSON output generated."

/-- `CodeValidator.validate` after a successful parse (lines 19–31):
required parts accumulate; the syntax and design checks run only when the
required-part stage produced no errors. -/
def validateParsed (tokens : List (PyStr × PyStr)) (code_dict : Json) :
    Except PyErr (List PyStr × Option Json) := do
  let errors ← requiredErrors code_dict
  if errors.isEmpty then
    let s ← check_syntax code_dict
    let c ← check_design_compliance tokens code_dict
    return (errors ++ s ++ c, some code_dict)
  else
    return (errors, some code_dict)

/-- `CodeValidator.validate`: strip markdown fences, strip whitespace,
parse, then validate; a parse failure returns the single error and no
partial artifact.  An `Except.error` models a Python exception escaping
`validate` (only `json.JSONDecodeError` is caught in the source). -/
def validate (tokens : List (PyStr × PyStr)) (raw_json : PyStr) :
    Except PyErr (List PyStr × Option Json) :=
  let cleaned_json := pyStrip (fenceSub raw_json)
  match loads cleaned_json with
  | none => .ok ([invalidJsonMsg], none)
  | some code_dict => validateParsed tokens code_dict

end CodeValidator

/-! ## `main.py` — `orchestrate_agentic_loop`

The Python function is a generator yielding progress-event dicts; it is
modelled as a pure function returning the list of yielded events together
with how the run ended (`LoopRes`).  A Python exception escaping the loop
ends the event stream without a terminal event (`LoopRes.raised`); falling
off the loop or `return code_dict` is `LoopRes.finished`.

The generation client (`generator.call_llm`) performs provider I/O, so it
is modelled as an oracle `llm : Nat → PyStr → PyStr` mapping the attempt
number and the current prompt to the raw text obtained; the orchestrator
itself never inspects the oracle.  Quantifying over oracles quantifies
over all sequences of generator outputs. -/

/-- One yielded progress event (the `{"step": ..., "value": ...}` dicts). -/
inductive Event where
  | attempt (n : Nat)
  | generating (msg : PyStr)
  | validating (msg : PyStr)
  | failed (msg : PyStr) (errors : List PyStr)
  | correcting (msg : PyStr)
  | success (msg : PyStr) (data : Option Json)
  | max_retries (msg : PyStr) (data : Option Json)

/-- How a run of the orchestrator generator ended. -/
inductive LoopRes where
  | finished (d : Option Json)
  | raised (e : PyErr)

/-- `f"Generating code (Attempt {attempt}/{max_retries})..."`. -/
def genMsg (attempt max_retries : Nat) : PyStr :=
  pyOfString ("Generating code (Attempt " ++ toString attempt ++ "/" ++
    toString max_retries ++ ")...")

/-- The `validating` event message. -/
def validatingMsg : PyStr := pyOfString "Validating design compliance & syntax..."

/-- `f"Found {len(errors)} issue(s)"`. -/
def failedMsg (n : Nat) : PyStr := pyOfString ("Found " ++ toString n ++ " issue(s)")

/-- The `correcting` event message. -/
def correctingMsg : PyStr := pyOfString "Re-prompting LLM with error feedback..."

/-- The `success` event message. -/
def successMsg : PyStr := pyOfString "Validation passed!"

/-- The `max_retries` event message. -/
def maxRetriesMsg : PyStr := pyOfString "Max retries reached."

/-- Join a list of strings with a separator (`sep.join(...)`). -/
def joinSep (sep : PyStr) : List PyStr → PyStr
  | [] => []
  | [x] => x
  | x :: xs => x ++ sep ++ joinSep sep xs

/-- The corrective prompt rebuilt after a failed attempt
(`main.py` lines 36–43). -/
def correctivePrompt (tokens : List (PyStr × PyStr)) (errors : List PyStr) : PyStr :=
  pyOfString "The previous Angular component had errors. Fix them.\n\nERRORS:\n" ++
  joinSep (pyOfString "\n") (errors.map (fun e => pyOfString "- " ++ e)) ++
  pyOfString "\n\nYou MUST use the primary color " ++
  toksGet tokens (pyOfString "primary-color") (pyOfString "#6366f1") ++
  pyOfString " and follow the design system.\nOutput ONLY valid JSON with keys: \"html\", \"css\", \"typescript\". No markdown.\n"

/-- The attempt loop of `orchestrate_agentic_loop` from a given attempt
number (`for attempt in range(1, max_retries + 1)` runs while
`attempt ≤ max_retries`). -/
def loopFrom (tokens : List (PyStr × PyStr)) (llm : Nat → PyStr → PyStr)
    (max_retries : Nat) (attempt : Nat) (prompt : PyStr) : List Event × LoopRes :=
  if max_retries < attempt then ([], .finished none)
  else
    let raw_output := llm attempt prompt
    let evs1 := [Event.attempt attempt, Event.generating (genMsg attempt max_retries),
                 Event.validating validatingMsg]
    match CodeValidator.validate tokens raw_output with
    | .error e => (evs1, .raised e)
    | .ok (errors, code_dict) =>
      if errors.isEmpty then
        (evs1 ++ [Event.success successMsg code_dict], .finished code_dict)
      else
        let evs2 := evs1 ++ [Event.failed (failedMsg errors.length) errors]
        if attempt < max_retries then
          let next :=
            loopFrom tokens llm max_retries (attempt + 1) (correctivePrompt tokens errors)
          (evs2 ++ [Event.correcting correctingMsg] ++ next.1, next.2)
        else
          (evs2 ++ [Event.max_retries maxRetriesMsg code_dict], .finished code_dict)
termination_by max_retries + 1 - attempt

/-- The conversation-context block (`history[-3:]`, each line
`f"Previous: {h}"`, embedded in the context template). -/
def fullPrompt (user_prompt : PyStr) (conversation_history : List PyStr) : PyStr :=
  if conversation_history.isEmpty then user_prompt
  else
    pyOfString "Context from previous turns:\n" ++
    joinSep (pyOfString "\n")
      ((conversation_history.drop (conversation_history.length - 3)).map
        (fun h => pyOfString "Previous: " ++ h)) ++
    pyOfString "\n\nNew request: " ++ user_prompt

/-! ## `generator.py` — `ComponentGenerator`

The provider clients (`groq`, `openai`, `claude`, `gemini`) perform
network I/O.  The claims under verification concern the configuration
with an empty client set (`self.clients == {}`), where the fallback walk
in `call_llm` skips every provider and the deterministic offline mock is
returned; only that path is embedded. -/

/-- A hex digit of `json.dumps`'s `\uXXXX` escapes (lowercase). -/
def hexDig (d : Nat) : Nat := if d < 10 then 48 + d else 87 + d

/-- Four lowercase hex digits of `n < 0x10000`. -/
def hex4 (n : Nat) : PyStr :=
  [hexDig (n / 4096), hexDig (n / 256 % 16), hexDig (n / 16 % 16), hexDig (n % 16)]

/-- `json.dumps` (`ensure_ascii=True`) encoding of one code point:
`\"`, `\\`, the short control escapes, printable ASCII kept, everything
else `\uXXXX` with surrogate pairs above the BMP. -/
def escChar (c : Nat) : PyStr :=
  if c = 34 then [92, 34]
  else if c = 92 then [92, 92]
  else if c = 10 then [92, 110]
  else if c = 13 then [92, 114]
  else if c = 9 then [92, 116]
  else if c = 8 then [92, 98]
  else if c = 12 then [92, 102]
  else if 32 ≤ c ∧ c ≤ 126 then [c]
  else if c < 0x10000 then 92 :: 117 :: hex4 c
  else
    (92 :: 117 :: hex4 (0xD800 + (c - 0x10000) / 0x400)) ++
      (92 :: 117 :: hex4 (0xDC00 + (c - 0x10000) % 0x400))

/-- `json.dumps` string-body encoding. -/
def escape (s : PyStr) : PyStr := s.flatMap escChar

/-- `json.dumps` encoding of a string, with quotes. -/
def encStr (s : PyStr) : PyStr := 34 :: (escape s ++ [34])

/-- One `"key": "value"` member of a flat `json.dumps` object
(default separators, no indent). -/
def memberDump (kv : PyStr × PyStr) : PyStr := encStr kv.1 ++ (58 :: 32 :: encStr kv.2)

/-- `json.dumps` of an object whose values are all strings, in insertion
order (default separators `", "` and `": "`). -/
def dumpsFlat (kvs : List (PyStr × PyStr)) : PyStr :=
  123 :: (joinSep [44, 32] (kvs.map memberDump) ++ [125])

/-- `json.dumps(tokens, indent=2)` for the string-valued token mapping
(as in `build_prompt`): `{}` when empty, otherwise one indented
`"key": "value"` line per token. -/
def dumpsTokensIndent (tokens : List (PyStr × PyStr)) : PyStr :=
  match tokens with
  | [] => [123, 125]
  | _ =>
    (123 :: 10 :: joinSep [44, 10]
      (tokens.map (fun kv => pyOfString "  " ++ encStr kv.1 ++ (58 :: 32 :: encStr kv.2)))) ++
      [10, 125]

/-- The fixed text of `build_prompt` before the serialized token map. -/
def promptPre : PyStr :=
  pyOfString "You are an expert Angular & Tailwind CSS developer.\nTASK: Generate a valid Angular component based on the user\x27s request.\n\nDESIGN SYSTEM (You MUST use these exact values):\n"

/-- The fixed text of `build_prompt` between the token map and the user
request (note the literal mention of Angular Material\x27s `MatButton`). -/
def promptMid : PyStr :=
  pyOfString "\n\nCONSTRAINTS:\n1. Use Tailwind CSS for all layout and custom styling.\n2. Use Angular Material components (MatCard, MatButton, MatInput, etc.) where helpful.\n3. Use ONLY the hex codes, fonts, and spacing from the Design System above.\n4. Output MUST be a valid JSON object with exactly these keys:\n   - \"html\": The Angular HTML template string. IMPORTANT: Ensure the template uses static placeholder text (e.g., \"12:00 PM\") instead of empty Angular interpolation (e.g., \"\x7b currentTime \x7d\") so it looks good in a static preview.\n   - \"css\": Any extra custom CSS string (can be empty string \"\").\n   - \"typescript\": The Angular TypeScript component class string.\n5. Do NOT output any markdown, code fences, or explanation. Raw JSON ONLY.\n\nUSER REQUEST: "

/-- `ComponentGenerator.build_prompt`. -/
def build_prompt (tokens : List (PyStr × PyStr)) (user_prompt : PyStr) : PyStr :=
  promptPre ++ dumpsTokensIndent tokens ++ promptMid ++ user_prompt

/-- `str.replace(pat, rep)` for a nonempty pattern; the fuel (always
sufficient at `length + 1`, since each step consumes at least one code
point) only makes the recursion structural. -/
def pyReplaceAux (pat rep : PyStr) : Nat → PyStr → PyStr
  | 0, s => s
  | _ + 1, [] => []
  | f + 1, c :: rest =>
    if pat.isPrefixOf (c :: rest) then
      rep ++ pyReplaceAux pat rep f (List.drop pat.length (c :: rest))
    else c :: pyReplaceAux pat rep f rest

/-- `s.replace(pat, rep)` (used only with the pattern `"app-"`). -/
def pyReplace (s pat rep : PyStr) : PyStr := pyReplaceAux pat rep (s.length + 1) s

/-- The `register` mock HTML template (`generator.py`). -/
def registerHtml (primary bg radius : PyStr) : PyStr :=
  pyOfString "<div class=\"flex items-center justify-center min-h-screen\">\n  <div class=\"p-8 w-96\" style=\"background:" ++
  bg ++
  pyOfString ";backdrop-filter:blur(12px);border-radius:" ++
  radius ++
  pyOfString ";border:1px solid rgba(255,255,255,0.25);\">\n    <h2 class=\"text-2xl font-bold mb-1 text-center\" style=\"color:" ++
  primary ++
  pyOfString "\">Create Account</h2>\n    <p class=\"text-center text-sm text-gray-400 mb-6\">Join us today \u2014 it\x27s free</p>\n    <div class=\"mb-3\"><input type=\"text\" placeholder=\"Full Name\" class=\"w-full px-4 py-2 rounded-lg border text-sm\" style=\"border-color:" ++
  primary ++
  pyOfString ";border-radius:" ++
  radius ++
  pyOfString ";\"></div>\n    <div class=\"mb-3\"><input type=\"email\" placeholder=\"Email address\" class=\"w-full px-4 py-2 rounded-lg border text-sm\" style=\"border-color:" ++
  primary ++
  pyOfString ";border-radius:" ++
  radius ++
  pyOfString ";\"></div>\n    <div class=\"mb-3\"><input type=\"password\" placeholder=\"Password\" class=\"w-full px-4 py-2 rounded-lg border text-sm\" style=\"border-color:" ++
  primary ++
  pyOfString ";border-radius:" ++
  radius ++
  pyOfString ";\"></div>\n    <div class=\"mb-5\"><input type=\"password\" placeholder=\"Confirm password\" class=\"w-full px-4 py-2 rounded-lg border text-sm\" style=\"border-color:" ++
  primary ++
  pyOfString ";border-radius:" ++
  radius ++
  pyOfString ";\"></div>\n    <button class=\"w-full py-2.5 font-semibold text-white text-sm rounded-lg\" style=\"background:" ++
  primary ++
  pyOfString ";border-radius:" ++
  radius ++
  pyOfString ";\">Register</button>\n    <p class=\"text-center text-xs mt-4 text-gray-400\">Already have an account? <span style=\"color:" ++
  primary ++
  pyOfString ";cursor:pointer;\">Sign in</span></p>\n  </div>\n</div>"

/-- The `navbar` mock HTML template (`generator.py`). -/
def navbarHtml (primary radius : PyStr) : PyStr :=
  pyOfString "<nav class=\"flex items-center justify-between px-8 py-4 shadow-md\" style=\"background:" ++
  primary ++
  pyOfString ";border-radius:" ++
  radius ++
  pyOfString ";\">\n  <div class=\"flex items-center gap-3\">\n    <div class=\"w-8 h-8 bg-white rounded-lg flex items-center justify-center font-bold text-sm\" style=\"color:" ++
  primary ++
  pyOfString "\">A</div>\n    <span class=\"font-bold text-white text-lg\">AppName</span>\n  </div>\n  <div class=\"flex items-center gap-6\">\n    <a href=\"#\" class=\"text-white text-sm opacity-80 hover:opacity-100\">Home</a>\n    <a href=\"#\" class=\"text-white text-sm opacity-80 hover:opacity-100\">About</a>\n    <a href=\"#\" class=\"text-white text-sm opacity-80 hover:opacity-100\">Features</a>\n    <a href=\"#\" class=\"text-white text-sm opacity-80 hover:opacity-100\">Pricing</a>\n    <button class=\"px-4 py-1.5 bg-white text-sm font-semibold rounded-full\" style=\"color:" ++
  primary ++
  pyOfString ";\">Get Started</button>\n  </div>\n</nav>"

/-- The `dashboard` mock HTML template (`generator.py`). -/
def dashboardHtml (primary radius : PyStr) : PyStr :=
  pyOfString "<div class=\"p-6 w-full max-w-3xl\">\n  <h1 class=\"text-2xl font-bold mb-6\" style=\"color:" ++
  primary ++
  pyOfString "\">Dashboard Overview</h1>\n  <div class=\"grid grid-cols-3 gap-4 mb-6\">\n    <div class=\"p-5 rounded-xl border text-center\" style=\"border-color:" ++
  primary ++
  pyOfString ";border-radius:" ++
  radius ++
  pyOfString ";\">\n      <div class=\"text-3xl font-bold\" style=\"color:" ++
  primary ++
  pyOfString "\">1,284</div>\n      <div class=\"text-sm text-gray-500 mt-1\">Total Users</div>\n    </div>\n    <div class=\"p-5 rounded-xl border text-center\" style=\"border-color:" ++
  primary ++
  pyOfString ";border-radius:" ++
  radius ++
  pyOfString ";\">\n      <div class=\"text-3xl font-bold\" style=\"color:" ++
  primary ++
  pyOfString "\">$9,420</div>\n      <div class=\"text-sm text-gray-500 mt-1\">Revenue</div>\n    </div>\n    <div class=\"p-5 rounded-xl border text-center\" style=\"border-color:" ++
  primary ++
  pyOfString ";border-radius:" ++
  radius ++
  pyOfString ";\">\n      <div class=\"text-3xl font-bold\" style=\"color:" ++
  primary ++
  pyOfString "\">98.2%</div>\n      <div class=\"text-sm text-gray-500 mt-1\">Uptime</div>\n    </div>\n  </div>\n  <div class=\"p-5 rounded-xl border\" style=\"border-radius:" ++
  radius ++
  pyOfString ";border-color:#e5e7eb;\">\n    <div class=\"text-sm font-semibold mb-3 text-gray-600\">Recent Activity</div>\n    <div class=\"space-y-2 text-sm text-gray-500\">\n      <div class=\"flex justify-between\"><span>User John signed up</span><span>2m ago</span></div>\n      <div class=\"flex justify-between\"><span>Order #1042 placed</span><span>15m ago</span></div>\n      <div class=\"flex justify-between\"><span>Server restarted</span><span>1h ago</span></div>\n    </div>\n  </div>\n</div>"

/-- The `profile` mock HTML template (`generator.py`). -/
def profileHtml (primary bg radius : PyStr) : PyStr :=
  pyOfString "<div class=\"flex items-center justify-center min-h-screen\">\n  <div class=\"p-8 w-80 text-center\" style=\"background:" ++
  bg ++
  pyOfString ";backdrop-filter:blur(12px);border-radius:" ++
  radius ++
  pyOfString ";border:1px solid rgba(255,255,255,0.2);\">\n    <div class=\"w-20 h-20 rounded-full mx-auto mb-4 flex items-center justify-center text-white text-2xl font-bold\" style=\"background:" ++
  primary ++
  pyOfString "\">JD</div>\n    <h2 class=\"text-xl font-bold text-white mb-1\">John Doe</h2>\n    <p class=\"text-sm text-gray-400 mb-4\">john@example.com</p>\n    <div class=\"flex justify-center gap-4 mb-5 text-center text-sm text-gray-300\">\n      <div><div class=\"font-bold text-white\">128</div><div>Posts</div></div>\n      <div><div class=\"font-bold text-white\">4.2k</div><div>Followers</div></div>\n      <div><div class=\"font-bold text-white\">310</div><div>Following</div></div>\n    </div>\n    <button class=\"w-full py-2 text-white font-semibold text-sm rounded-lg\" style=\"background:" ++
  primary ++
  pyOfString ";border-radius:" ++
  radius ++
  pyOfString ";\">Edit Profile</button>\n  </div>\n</div>"

/-- The `button` mock HTML template (`generator.py`). -/
def buttonHtml (primary radius : PyStr) : PyStr :=
  pyOfString "<div class=\"flex flex-wrap gap-4 items-center justify-center p-8\">\n  <button class=\"px-6 py-2.5 font-semibold text-white rounded-lg\" style=\"background:" ++
  primary ++
  pyOfString ";border-radius:" ++
  radius ++
  pyOfString ";\">Primary</button>\n  <button class=\"px-6 py-2.5 font-semibold rounded-lg border-2\" style=\"border-color:" ++
  primary ++
  pyOfString ";color:" ++
  primary ++
  pyOfString ";border-radius:" ++
  radius ++
  pyOfString ";\">Outline</button>\n  <button class=\"px-6 py-2.5 font-semibold text-white rounded-lg opacity-50 cursor-not-allowed\" style=\"background:" ++
  primary ++
  pyOfString ";border-radius:" ++
  radius ++
  pyOfString ";\" disabled>Disabled</button>\n  <button class=\"px-6 py-2.5 font-semibold text-white rounded-full\" style=\"background:" ++
  primary ++
  pyOfString ";\">Rounded</button>\n  <button class=\"px-4 py-2 text-sm font-medium text-white rounded-lg flex items-center gap-2\" style=\"background:" ++
  primary ++
  pyOfString ";border-radius:" ++
  radius ++
  pyOfString ";\">\n    <svg class=\"w-4 h-4\" fill=\"none\" stroke=\"currentColor\" viewBox=\"0 0 24 24\"><path stroke-linecap=\"round\" stroke-linejoin=\"round\" stroke-width=\"2\" d=\"M12 4v16m8-8H4\"/></svg>\n    Add Item\n  </button>\n</div>"

/-- The `login` mock HTML template (`generator.py`). -/
def loginHtml (primary bg radius title : PyStr) : PyStr :=
  pyOfString "<div class=\"flex items-center justify-center min-h-screen\">\n  <div class=\"p-8 w-96\" style=\"background:" ++
  bg ++
  pyOfString ";backdrop-filter:blur(12px);border-radius:" ++
  radius ++
  pyOfString ";border:1px solid rgba(255,255,255,0.2);\">\n    <h2 class=\"text-2xl font-bold mb-6 text-center\" style=\"color:" ++
  primary ++
  pyOfString "\">" ++
  title ++
  pyOfString "</h2>\n    <div class=\"mb-4\"><label class=\"block text-sm font-medium mb-1\">Email</label>\n      <input type=\"email\" placeholder=\"you@example.com\" class=\"w-full px-4 py-2 rounded-lg border text-sm\" style=\"border-color:" ++
  primary ++
  pyOfString ";border-radius:" ++
  radius ++
  pyOfString ";\"></div>\n    <div class=\"mb-6\"><label class=\"block text-sm font-medium mb-1\">Password</label>\n      <input type=\"password\" placeholder=\"\u2022\u2022\u2022\u2022\u2022\u2022\u2022\u2022\" class=\"w-full px-4 py-2 rounded-lg border text-sm\" style=\"border-color:" ++
  primary ++
  pyOfString ";border-radius:" ++
  radius ++
  pyOfString ";\"></div>\n    <button class=\"w-full py-2.5 font-semibold text-white text-sm rounded-lg\" style=\"background:" ++
  primary ++
  pyOfString ";border-radius:" ++
  radius ++
  pyOfString ";\">" ++
  title ++
  pyOfString "</button>\n    <p class=\"text-center text-xs mt-4\" style=\"color:" ++
  primary ++
  pyOfString ";cursor:pointer;\">Forgot password?</p>\n  </div>\n</div>"

/-- The mock `css` field:
`f"/* {ts_class} styles — using {primary} primary token */ * {{ font-family: {font}; }}"`. -/
def mockCss (ts_class primary font : PyStr) : PyStr :=
  pyOfString "/* " ++ ts_class ++ pyOfString " styles — using " ++ primary ++
    pyOfString " primary token */ * \x7b font-family: " ++ font ++ pyOfString "; \x7d"

/-- The mock `typescript` field (the `@Component` class template). -/
def mockTs (ts_selector ts_class : PyStr) : PyStr :=
  let stem := pyReplace ts_selector (pyOfString "app-") []
  pyOfString "import \x7b Component \x7d from \x27@angular/core\x27;\n\n@Component(\x7b\n  selector: \x27" ++
  ts_selector ++
  pyOfString "\x27,\n  standalone: true,\n  templateUrl: \x27./" ++
  stem ++
  pyOfString ".component.html\x27,\n  styleUrls: [\x27./" ++
  stem ++
  pyOfString ".component.css\x27]\n\x7d)\nexport class " ++
  ts_class ++ pyOfString " \x7b\x7d"

/-- `any(k in p for k in [...])`. -/
def anyIn (p : PyStr) (ks : List String) : Bool :=
  ks.any (fun k => containsSub p (pyOfString k))

/-- The `(html, ts_class, ts_selector)` triple chosen by
`_mock_for_prompt`'s keyword cascade on the lowercased prompt. -/
def mockChoice (p primary bg radius : PyStr) : PyStr × PyStr × PyStr :=
  if anyIn p ["register", "signup", "sign up", "create account"] then
    (registerHtml primary bg radius, pyOfString "RegisterComponent", pyOfString "app-register")
  else if anyIn p ["navbar", "navigation", "nav bar", "header", "topbar"] then
    (navbarHtml primary radius, pyOfString "NavbarComponent", pyOfString "app-navbar")
  else if anyIn p ["dashboard", "stats", "analytics", "overview", "metric"] then
    (dashboardHtml primary radius, pyOfString "DashboardComponent", pyOfString "app-dashboard")
  else if anyIn p ["profile", "user card", "avatar", "account"] then
    (profileHtml primary bg radius, pyOfString "ProfileComponent", pyOfString "app-profile")
  else if anyIn p ["button", "btn", "cta"] then
    (buttonHtml primary radius, pyOfString "ButtonShowcaseComponent", pyOfString "app-buttons")
  else
    let title := if containsSub p (pyOfString "login") then pyOfString "Login"
      else pyOfString "Sign In"
    (loginHtml primary bg radius title, pyOfString "LoginComponent", pyOfString "app-login")

/-- `ComponentGenerator._mock_for_prompt`: pick the template from keywords
in the lowercased prompt, fill in the design tokens (with the documented
fallback defaults), and `json.dumps` the three-field artifact. -/
def mock_for_prompt (tokens : List (PyStr × PyStr)) (prompt : PyStr) : PyStr :=
  let p := pyLower prompt
  let primary := toksGet tokens (pyOfString "primary-color") (pyOfString "#6366f1")
  let bg := toksGet tokens (pyOfString "glass-background") (pyOfString "rgba(255,255,255,0.1)")
  let radius := toksGet tokens (pyOfString "border-radius") (pyOfString "8px")
  let font := toksGet tokens (pyOfString "font-family") (pyOfString "Inter, sans-serif")
  let choice := mockChoice p primary bg radius
  dumpsFlat
    [(pyOfString "html", choice.1),
     (pyOfString "css", mockCss choice.2.1 primary font),
     (pyOfString "typescript", mockTs choice.2.2 choice.2.1)]

/-- `ComponentGenerator.call_llm` when no provider client is configured
(`self.clients == {}`): the fallback walk skips every provider and the
prompt-aware mock is returned. -/
def call_llm_no_clients (tokens : List (PyStr × PyStr)) (prompt : PyStr) : PyStr :=
  mock_for_prompt tokens prompt

/-- `orchestrate_agentic_loop` (`main.py`): build the context-augmented
initial prompt and run the attempt loop.  `max_retries` is a Python int;
`range(1, max_retries + 1)` performs `max 0 max_retries` iterations. -/
def orchestrate_agentic_loop (tokens : List (PyStr × PyStr)) (llm : Nat → PyStr → PyStr)
    (user_prompt : PyStr) (max_retries : Int) (conversation_history : List PyStr) :
    List Event × LoopRes :=
  let current_prompt := build_prompt tokens (fullPrompt user_prompt conversation_history)
  loopFrom tokens llm max_retries.toNat 1 current_prompt

/-! ## Observables and run-trace helpers used by the statements -/

/-- Did `validate` accept the raw text (no errors, no exception)? -/
def validationPassed (tokens : List (PyStr × PyStr)) (raw : PyStr) : Bool :=
  match CodeValidator.validate tokens raw with
  | .ok (errs, _) => errs.isEmpty
  | .error _ => false

/-- Is this an `attempt` progress event? -/
def Event.isAttempt : Event → Bool
  | .attempt _ => true
  | _ => false

/-- Is this a terminal event (`success` or `max_retries`)? -/
def Event.isTerminal : Event → Bool
  | .success _ _ => true
  | .max_retries _ _ => true
  | _ => false

/-- Number of `attempt` events in a run. -/
def attemptCount (evs : List Event) : Nat := evs.countP (fun e => e.isAttempt)

/-- Number of terminal events in a run. -/
def terminalCount (evs : List Event) : Nat := evs.countP (fun e => e.isTerminal)

/-- The prompt the loop uses on attempt `k` (attempt 1 gets the initial
prompt; attempt `k + 1` gets the corrective prompt built from attempt
`k`'s error list).  The `error` fallback is never taken on runs where
validation returns normally. -/
def promptAt (tokens : List (PyStr × PyStr)) (llm : Nat → PyStr → PyStr) (initP : PyStr) :
    Nat → PyStr
  | 0 => initP
  | 1 => initP
  | Nat.succ (Nat.succ b) =>
    match CodeValidator.validate tokens (llm (b + 1) (promptAt tokens llm initP (b + 1))) with
    | .ok (errors, _) => correctivePrompt tokens errors
    | .error _ => initP

/-- The validation outcome of attempt `k`. -/
def outcomeAt (tokens : List (PyStr × PyStr)) (llm : Nat → PyStr → PyStr) (initP : PyStr)
    (k : Nat) : Except PyErr (List PyStr × Option Json) :=
  CodeValidator.validate tokens (llm k (promptAt tokens llm initP k))

/-- The error list of attempt `k` (empty on an exception). -/
def errsAtD (tokens : List (PyStr × PyStr)) (llm : Nat → PyStr → PyStr) (initP : PyStr)
    (k : Nat) : List PyStr :=
  match outcomeAt tokens llm initP k with
  | .ok (e, _) => e
  | .error _ => []

/-- The partial artifact of attempt `k` (`none` on a parse failure). -/
def artAtD (tokens : List (PyStr × PyStr)) (llm : Nat → PyStr → PyStr) (initP : PyStr)
    (k : Nat) : Option Json :=
  match outcomeAt tokens llm initP k with
  | .ok (_, a) => a
  | .error _ => none

/-- A valid Unicode scalar (representable as a Lean `Char`; Python
strings additionally admit lone surrogates). -/
def okScalar (c : Nat) : Bool := c < 0xD800 || (0xE000 ≤ c && c < 0x110000)

/-- All code points are valid scalars. -/
def wfStr (s : PyStr) : Bool := s.all okScalar

/-- No backtick — the markdown-fence stripper in `validate` cannot touch
such text. -/
def noFence (s : PyStr) : Bool := !s.contains 96

/-- No curly braces and no parentheses (the syntax-balance alphabet). -/
def balancedFree (s : PyStr) : Bool :=
  !s.contains 123 && !s.contains 125 && !s.contains 40 && !s.contains 41

/-- A code point that is a valid scalar and not a backtick: text made of
such code points survives both `json.dumps`/`json.loads` and the
markdown-fence stripper unchanged. -/
def mockSafe (c : Nat) : Bool := okScalar c && !(c == 96)

/-- The four recognized token values as the mock generator retrieves them
(with the documented fallback defaults). -/
def mockTokens (tokens : List (PyStr × PyStr)) : PyStr × PyStr × PyStr × PyStr :=
  (toksGet tokens (pyOfString "primary-color") (pyOfString "#6366f1"),
   toksGet tokens (pyOfString "glass-background") (pyOfString "rgba(255,255,255,0.1)"),
   toksGet tokens (pyOfString "border-radius") (pyOfString "8px"),
   toksGet tokens (pyOfString "font-family") (pyOfString "Inter, sans-serif"))

/-- The parsed form of the mock's three-field artifact (`json.loads` of
the dumped object, fields in dump order). -/
def mockDoc (H C T : PyStr) : Json :=
  Json.obj [(pyOfString "html", Json.str H), (pyOfString "css", Json.str C),
            (pyOfString "typescript", Json.str T)]

/-- The per-branch facts about a mock `(ts_class, ts_selector)` pair that
the validator needs of the `typescript` field and of the class name
embedded in the `css` field: safe characters, nonemptiness, balanced
braces and parentheses. -/
def tsOk (cls sel : PyStr) : Bool :=
  (mockTs sel cls).all mockSafe && !(mockTs sel cls).isEmpty &&
  ((mockTs sel cls).count 123 == (mockTs sel cls).count 125) &&
  ((mockTs sel cls).count 40 == (mockTs sel cls).count 41) &&
  cls.all mockSafe && (cls.count 123 == 0) && (cls.count 125 == 0) &&
  (cls.count 40 == 0) && (cls.count 41 == 0)

/-! # Theorems -/

/-! ## Basic facts about the embedded primitives -/

theorem lookupLast_isSome_eq_any (kvs : List (PyStr × Json)) (key : PyStr) :
    (lookupLast kvs key).isSome = kvs.any (fun kv => kv.1 = key) := by
  induction kvs with
  | nil => rfl
  | cons hd tl ih =>
    obtain ⟨k, v⟩ := hd
    simp only [lookupLast, List.any_cons]
    cases h : lookupLast tl key with
    | some r => simp [← ih, h]
    | none =>
      simp only [← ih, h]
      by_cases hk : k = key
      · simp [hk]
      · simp [hk]

theorem pyGetItem_of_lookupLast {kvs : List (PyStr × Json)} {key : PyStr} {v : Json}
    (h : lookupLast kvs key = some v) : pyGetItem (Json.obj kvs) key = .ok v := by
  simp [pyGetItem, h]

/-! ## Claims about the validator (`validator.py`) -/

/-- C2: the spec promises an exception-free contract for `validate`, but
the code only catches `json.JSONDecodeError`: raw text that parses to a
JSON value that is not a container — here the bare integer literal `5` —
reaches `"html" not in code_dict` and raises `TypeError`, escaping
`validate` (and with it the orchestrator's event stream).  The theorem
evaluates the embedded code at that failing input, for every token
mapping. -/
theorem c2_validate_raises_on_int_output (tokens : List (PyStr × PyStr)) :
    CodeValidator.validate tokens (pyOfString "5") = .error .typeError := rfl

/-- C2 witness: the failing input evaluated at a concrete token mapping. -/
theorem c2_validate_raises_on_int_output_witness :
    CodeValidator.validate [] (pyOfString "5") = .error .typeError :=
  c2_validate_raises_on_int_output []

/-- C3 counterexample: the raw input `"[]"` fails to parse as a key-value
document — it parses as an empty JSON array, not an object — yet
`validate` does not return the single parse error with no artifact: it
returns the three missing-part errors together with the parsed array as
partial artifact. -/
theorem c3_counterexample :
    (loads (pyStrip (fenceSub (pyOfString "[]"))) = some (Json.arr []) ∧
      ∀ kvs, Json.arr [] ≠ Json.obj kvs) ∧
    CodeValidator.validate [] (pyOfString "[]") =
      .ok ([pyOfString "Missing or empty component part: html",
            pyOfString "Missing or empty component part: typescript",
            pyOfString "Missing component part: css"], some (Json.arr [])) ∧
    [pyOfString "Missing or empty component part: html",
     pyOfString "Missing or empty component part: typescript",
     pyOfString "Missing component part: css"] ≠ [CodeValidator.invalidJsonMsg] :=
  ⟨⟨rfl, fun _ h => Json.noConfusion h⟩, rfl, by decide⟩

/-- C3 (amended): for every raw input on which JSON parsing itself fails
(`json.loads` raises `JSONDecodeError` after fence stripping), `validate`
returns `Invalid` with exactly the single parse error and no partial
artifact.  (Raw inputs that parse to a non-object JSON value are instead
handled — or crash — in the field checks; see the counterexample and C2.) -/
theorem c3_parse_failure_single_error (tokens : List (PyStr × PyStr)) (raw : PyStr)
    (h : loads (pyStrip (fenceSub raw)) = none) :
    CodeValidator.validate tokens raw = .ok ([CodeValidator.invalidJsonMsg], none) := by
  simp [CodeValidator.validate, h]

/-- C3 witness: scenario A, `validate("not json")`. -/
theorem c3_parse_failure_single_error_witness :
    loads (pyStrip (fenceSub (pyOfString "not json"))) = none ∧
    CodeValidator.validate [] (pyOfString "not json") =
      .ok ([CodeValidator.invalidJsonMsg], none) :=
  ⟨rfl, c3_parse_failure_single_error [] (pyOfString "not json") rfl⟩

theorem requiredPart_obj (kvs : List (PyStr × Json)) (part : String) :
    CodeValidator.requiredPart (Json.obj kvs) part = .ok
      (if (match lookupLast kvs (pyOfString part) with
           | none => true
           | some v => !v.truthy) then
        [pyOfString ("Missing or empty component part: " ++ part)]
      else []) := by
  unfold CodeValidator.requiredPart
  cases h : lookupLast kvs (pyOfString part) with
  | none =>
    have hany : kvs.any (fun kv => kv.1 = pyOfString part) = false := by
      rw [← lookupLast_isSome_eq_any, h]; rfl
    simp [pyIn, hany, Bind.bind, Except.bind, pure, Except.pure]
  | some v =>
    have hany : kvs.any (fun kv => kv.1 = pyOfString part) = true := by
      rw [← lookupLast_isSome_eq_any, h]; rfl
    have hget := pyGetItem_of_lookupLast h
    cases ht : v.truthy <;>
      simp [pyIn, hany, hget, ht, Bind.bind, Except.bind, pure, Except.pure]

theorem cssCheck_obj (kvs : List (PyStr × Json)) :
    CodeValidator.cssCheck (Json.obj kvs) = .ok
      (if (lookupLast kvs (pyOfString "css")).isNone then
        [pyOfString "Missing component part: css"]
      else []) := by
  unfold CodeValidator.cssCheck
  cases h : lookupLast kvs (pyOfString "css") with
  | none =>
    have hany : kvs.any (fun kv => kv.1 = pyOfString "css") = false := by
      rw [← lookupLast_isSome_eq_any, h]; rfl
    simp [pyIn, hany, Bind.bind, Except.bind, pure, Except.pure]
  | some v =>
    have hany : kvs.any (fun kv => kv.1 = pyOfString "css") = true := by
      rw [← lookupLast_isSome_eq_any, h]; rfl
    simp [pyIn, hany, Bind.bind, Except.bind, pure, Except.pure]

/-- C4: on every parsed key-value document, `html` and `typescript` must
each be present with a truthy value (for a string value, truthy means
non-empty), one distinct error citing the field name per violation;
`css` must merely be present (the empty string is permitted), a missing
key producing its own error; the three checks accumulate into one list
(no short-circuit); and the syntax-balance and design-compliance checks
run only when the required-field stage produced zero errors. -/
theorem c4_required_field_stage (tokens : List (PyStr × PyStr)) (kvs : List (PyStr × Json)) :
    (∀ s : PyStr, (Json.str s).truthy = !s.isEmpty) ∧
    CodeValidator.requiredErrors (Json.obj kvs) = .ok
      ((if (match lookupLast kvs (pyOfString "html") with
            | none => true
            | some v => !v.truthy) then
          [pyOfString "Missing or empty component part: html"]
        else []) ++
       (if (match lookupLast kvs (pyOfString "typescript") with
            | none => true
            | some v => !v.truthy) then
          [pyOfString "Missing or empty component part: typescript"]
        else []) ++
       (if (lookupLast kvs (pyOfString "css")).isNone then
          [pyOfString "Missing component part: css"]
        else [])) ∧
    (∀ errs, CodeValidator.requiredErrors (Json.obj kvs) = .ok errs → errs ≠ [] →
      CodeValidator.validateParsed tokens (Json.obj kvs) = .ok (errs, some (Json.obj kvs))) ∧
    (CodeValidator.requiredErrors (Json.obj kvs) = .ok [] →
      CodeValidator.validateParsed tokens (Json.obj kvs) =
        (CodeValidator.check_syntax (Json.obj kvs)).bind fun s =>
          (CodeValidator.check_design_compliance tokens (Json.obj kvs)).bind fun c =>
            .ok (s ++ c, some (Json.obj kvs))) := by
  refine ⟨fun _ => rfl, ?_, ?_, ?_⟩
  · unfold CodeValidator.requiredErrors
    rw [requiredPart_obj kvs "html", requiredPart_obj kvs "typescript", cssCheck_obj kvs]
    rfl
  · intro errs herrs hne
    unfold CodeValidator.validateParsed
    rw [herrs]
    simp [Bind.bind, Except.bind, pure, Except.pure, hne]
  · intro herrs
    unfold CodeValidator.validateParsed
    rw [herrs]
    cases hs : CodeValidator.check_syntax (Json.obj kvs) with
    | error e => simp [hs, Bind.bind, Except.bind, pure, Except.pure]
    | ok sl =>
      cases hc : CodeValidator.check_design_compliance tokens (Json.obj kvs) with
      | error e => simp [hs, hc, Bind.bind, Except.bind, pure, Except.pure, Functor.map, Except.map]
      | ok cl => simp [hs, hc, Bind.bind, Except.bind, pure, Except.pure, Functor.map, Except.map]

/-- C4 witness: the empty document reports all three missing fields at
once, and the later checks are skipped. -/
theorem c4_required_field_stage_witness :
    CodeValidator.requiredErrors (Json.obj []) = .ok
      [pyOfString "Missing or empty component part: html",
       pyOfString "Missing or empty component part: typescript",
       pyOfString "Missing component part: css"] ∧
    CodeValidator.validateParsed [] (Json.obj []) = .ok
      ([pyOfString "Missing or empty component part: html",
        pyOfString "Missing or empty component part: typescript",
        pyOfString "Missing component part: css"], some (Json.obj [])) := by
  obtain ⟨-, hmain, hgate, -⟩ := c4_required_field_stage [] []
  have hmain' : CodeValidator.requiredErrors (Json.obj []) = .ok
      [pyOfString "Missing or empty component part: html",
       pyOfString "Missing or empty component part: typescript",
       pyOfString "Missing component part: css"] := hmain
  exact ⟨hmain', hgate _ hmain' (by decide)⟩

/-- C5: for every parsed document whose `typescript` and `css` fields
retrieve as strings (`.get(key, "")`), the syntax check tests both fields
independently — `{` against `}` and `(` against `)` — and each imbalance
contributes one separate error naming the field, in source order;
and the scenario-E content `"class C { "` yields exactly the one
`Unbalanced curly braces in typescript` error. -/
theorem c5_syntax_balance (kvs : List (PyStr × Json)) (ts cs : PyStr)
    (hts : (lookupLast kvs (pyOfString "typescript")).getD (Json.str []) = Json.str ts)
    (hcs : (lookupLast kvs (pyOfString "css")).getD (Json.str []) = Json.str cs) :
    CodeValidator.check_syntax (Json.obj kvs) = .ok
      ((if ts.count 123 ≠ ts.count 125 then
          [pyOfString "Unbalanced curly braces in typescript"] else []) ++
       (if ts.count 40 ≠ ts.count 41 then
          [pyOfString "Unbalanced parentheses in typescript"] else []) ++
       ((if cs.count 123 ≠ cs.count 125 then
          [pyOfString "Unbalanced curly braces in css"] else []) ++
        (if cs.count 40 ≠ cs.count 41 then
          [pyOfString "Unbalanced parentheses in css"] else []))) ∧
    CodeValidator.check_syntax (Json.obj
      [(pyOfString "html", Json.str (pyOfString "<div>x</div>")),
       (pyOfString "typescript", Json.str (pyOfString "class C \x7b ")),
       (pyOfString "css", Json.str [])]) =
      .ok [pyOfString "Unbalanced curly braces in typescript"] := by
  constructor
  · unfold CodeValidator.check_syntax CodeValidator.syntaxErrsFor
    simp only [dictGet, hts, hcs, pyCountChar, Bind.bind, Except.bind, pure, Except.pure]
    simp
  · rfl

/-- C5 witness: scenario E instantiated (`typescript = "class C { "`,
balanced parentheses, empty `css`). -/
theorem c5_syntax_balance_witness :
    ((lookupLast
        [(pyOfString "html", Json.str (pyOfString "<div>x</div>")),
         (pyOfString "typescript", Json.str (pyOfString "class C \x7b ")),
         (pyOfString "css", Json.str [])] (pyOfString "typescript")).getD (Json.str []) =
      Json.str (pyOfString "class C \x7b ")) ∧
    CodeValidator.check_syntax (Json.obj
      [(pyOfString "html", Json.str (pyOfString "<div>x</div>")),
       (pyOfString "typescript", Json.str (pyOfString "class C \x7b ")),
       (pyOfString "css", Json.str [])]) =
      .ok [pyOfString "Unbalanced curly braces in typescript"] :=
  ⟨rfl, (c5_syntax_balance
    [(pyOfString "html", Json.str (pyOfString "<div>x</div>")),
     (pyOfString "typescript", Json.str (pyOfString "class C \x7b ")),
     (pyOfString "css", Json.str [])]
    (pyOfString "class C \x7b ") [] rfl rfl).2⟩

/-- C6: for every parsed document whose `html` and `css` fields retrieve
as strings, the design-compliance check looks for the lower-cased
`primary-color` token value as a literal substring of the lower-cased
concatenation `html + css`; absence produces exactly one error naming the
(lower-cased) color value, and when no primary-color token is configured
(the validator's default is the empty, falsy string) the check is skipped
and can never produce an error. -/
theorem c6_design_compliance (tokens : List (PyStr × PyStr)) (kvs : List (PyStr × Json))
    (h cs : PyStr)
    (hh : (lookupLast kvs (pyOfString "html")).getD (Json.str []) = Json.str h)
    (hcs : (lookupLast kvs (pyOfString "css")).getD (Json.str []) = Json.str cs) :
    CodeValidator.check_design_compliance tokens (Json.obj kvs) = .ok
      (if !(pyLower (toksGet tokens (pyOfString "primary-color") [])).isEmpty &&
          !containsSub (pyLower (h ++ cs))
            (pyLower (toksGet tokens (pyOfString "primary-color") [])) then
        [CodeValidator.dtvMsg (pyLower (toksGet tokens (pyOfString "primary-color") []))]
      else []) := by
  unfold CodeValidator.check_design_compliance
  simp only [dictGet, hh, hcs, pyAdd, pyLowerVal, pyLower, List.map_append,
    Bind.bind, Except.bind, pure, Except.pure]
  split <;> simp_all [pyLower]

/-- C6 witness: scenario B — token `primary-color = "#111"`, absent from
`html + css`, yields exactly the one violation naming `#111`. -/
theorem c6_design_compliance_witness :
    ((lookupLast
        [(pyOfString "html", Json.str (pyOfString "<div>x</div>")),
         (pyOfString "typescript", Json.str (pyOfString "class C \x7b\x7d")),
         (pyOfString "css", Json.str [])] (pyOfString "html")).getD (Json.str []) =
      Json.str (pyOfString "<div>x</div>")) ∧
    CodeValidator.check_design_compliance [(pyOfString "primary-color", pyOfString "#111")]
      (Json.obj
        [(pyOfString "html", Json.str (pyOfString "<div>x</div>")),
         (pyOfString "typescript", Json.str (pyOfString "class C \x7b\x7d")),
         (pyOfString "css", Json.str [])]) =
      .ok [CodeValidator.dtvMsg (pyOfString "#111")] := by
  refine ⟨rfl, ?_⟩
  have := c6_design_compliance [(pyOfString "primary-color", pyOfString "#111")]
    [(pyOfString "html", Json.str (pyOfString "<div>x</div>")),
     (pyOfString "typescript", Json.str (pyOfString "class C \x7b\x7d")),
     (pyOfString "css", Json.str [])]
    (pyOfString "<div>x</div>") [] rfl rfl
  rw [this, if_pos (by decide)]
  rfl

/-! ## The attempt-loop characterization (`main.py`) -/

theorem promptAt_succ (tokens : List (PyStr × PyStr)) (llm : Nat → PyStr → PyStr)
    (initP : PyStr) (a : Nat) (h1 : 1 ≤ a) {errors : List PyStr} {art : Option Json}
    (hout : outcomeAt tokens llm initP a = .ok (errors, art)) :
    promptAt tokens llm initP (a + 1) = correctivePrompt tokens errors := by
  obtain ⟨b, rfl⟩ : ∃ b, a = b + 1 := ⟨a - 1, by omega⟩
  have : outcomeAt tokens llm initP (b + 1) =
      CodeValidator.validate tokens (llm (b + 1) (promptAt tokens llm initP (b + 1))) := rfl
  rw [this] at hout
  show promptAt tokens llm initP (b + 2) = correctivePrompt tokens errors
  unfold promptAt
  rw [hout]

theorem errsAtD_of_outcome {tokens : List (PyStr × PyStr)} {llm : Nat → PyStr → PyStr}
    {initP : PyStr} {a : Nat} {errors : List PyStr} {art : Option Json}
    (hout : outcomeAt tokens llm initP a = .ok (errors, art)) :
    errsAtD tokens llm initP a = errors := by
  unfold errsAtD
  rw [hout]

theorem artAtD_of_outcome {tokens : List (PyStr × PyStr)} {llm : Nat → PyStr → PyStr}
    {initP : PyStr} {a : Nat} {errors : List PyStr} {art : Option Json}
    (hout : outcomeAt tokens llm initP a = .ok (errors, art)) :
    artAtD tokens llm initP a = art := by
  unfold artAtD
  rw [hout]

/-- One induction over the remaining attempts characterizing
`loopFrom` on a run whose attempts all return normally: attempt-event
count bound, exactly one terminal event, the range of attempt indices,
no attempts beyond a validated one, and the exhaustion shape. -/
theorem loopFrom_run (tokens : List (PyStr × PyStr)) (llm : Nat → PyStr → PyStr)
    (initP : PyStr) (r : Nat) :
    ∀ n a, r - a = n → 1 ≤ a → a ≤ r →
    (∀ k, a ≤ k → k ≤ r → ∃ p, outcomeAt tokens llm initP k = .ok p) →
    (attemptCount (loopFrom tokens llm r a (promptAt tokens llm initP a)).1 ≤ r + 1 - a) ∧
    (terminalCount (loopFrom tokens llm r a (promptAt tokens llm initP a)).1 = 1) ∧
    (∀ j, Event.attempt j ∈ (loopFrom tokens llm r a (promptAt tokens llm initP a)).1 →
      a ≤ j ∧ j ≤ r) ∧
    (∀ k, a ≤ k → k ≤ r → errsAtD tokens llm initP k = [] → ∀ j, k < j →
      Event.attempt j ∉ (loopFrom tokens llm r a (promptAt tokens llm initP a)).1) ∧
    ((∀ k, a ≤ k → k ≤ r → errsAtD tokens llm initP k ≠ []) →
      ∃ pre, (loopFrom tokens llm r a (promptAt tokens llm initP a)).1 =
          pre ++ [Event.failed (failedMsg (errsAtD tokens llm initP r).length)
                    (errsAtD tokens llm initP r),
                  Event.max_retries maxRetriesMsg (artAtD tokens llm initP r)] ∧
        (loopFrom tokens llm r a (promptAt tokens llm initP a)).2 =
          .finished (artAtD tokens llm initP r)) := by
  intro n
  induction n with
  | zero =>
    intro a hn h1 har hok
    have har' : a = r := by omega
    obtain ⟨⟨errors, art⟩, hout⟩ := hok a le_rfl har
    have hE := errsAtD_of_outcome hout
    have hA := artAtD_of_outcome hout
    have hv : CodeValidator.validate tokens (llm a (promptAt tokens llm initP a)) =
        .ok (errors, art) := hout
    rw [loopFrom, if_neg (by omega)]
    simp only [hv]
    cases herrs : errors with
    | nil =>
      subst herrs
      simp only [List.isEmpty_nil, if_pos]
      refine ⟨?_, ?_, ?_, ?_, ?_⟩
      · simp [attemptCount, List.countP_append, List.countP_cons, Event.isAttempt]
        omega
      · simp [terminalCount, List.countP_append, List.countP_cons, Event.isTerminal]
      · intro j hj
        simp [Event.isAttempt] at hj
        omega
      · intro k hak hkr hke j hkj hj
        simp [Event.isAttempt] at hj
        omega
      · intro hall
        exact absurd hE (by simpa using hall a le_rfl har)
    | cons e0 es0 =>
      rw [← herrs]
      have hne : errors.isEmpty = false := by rw [herrs]; simp
      simp only [hne, Bool.false_eq_true, if_false, if_neg (by omega : ¬ a < r)]
      refine ⟨?_, ?_, ?_, ?_, ?_⟩
      · simp [attemptCount, List.countP_append, List.countP_cons, Event.isAttempt]
        omega
      · simp [terminalCount, List.countP_append, List.countP_cons, Event.isTerminal]
      · intro j hj
        simp [Event.isAttempt] at hj
        omega
      · intro k hak hkr hke j hkj hj
        simp [Event.isAttempt] at hj
        omega
      · intro hall
        refine ⟨[Event.attempt a, Event.generating (genMsg a r),
          Event.validating validatingMsg], ?_, ?_⟩
        · subst har'
          rw [hE, hA]
          simp
        · subst har'
          rw [hA]
  | succ m ih =>
    intro a hn h1 har hok
    have halt : a < r := by omega
    obtain ⟨⟨errors, art⟩, hout⟩ := hok a le_rfl har
    have hE := errsAtD_of_outcome hout
    have hA := artAtD_of_outcome hout
    have hv : CodeValidator.validate tokens (llm a (promptAt tokens llm initP a)) =
        .ok (errors, art) := hout
    rw [loopFrom, if_neg (by omega)]
    simp only [hv]
    cases herrs : errors with
    | nil =>
      subst herrs
      simp only [List.isEmpty_nil, if_pos]
      refine ⟨?_, ?_, ?_, ?_, ?_⟩
      · simp [attemptCount, List.countP_append, List.countP_cons, Event.isAttempt]
        omega
      · simp [terminalCount, List.countP_append, List.countP_cons, Event.isTerminal]
      · intro j hj
        simp [Event.isAttempt] at hj
        omega
      · intro k hak hkr hke j hkj hj
        simp [Event.isAttempt] at hj
        omega
      · intro hall
        exact absurd hE (by simpa using hall a le_rfl har)
    | cons e0 es0 =>
      rw [← herrs]
      have hne : errors.isEmpty = false := by rw [herrs]; simp
      simp only [hne, Bool.false_eq_true, if_false, if_pos halt]
      have hprompt := promptAt_succ tokens llm initP a h1 hout
      rw [← hprompt]
      have hIH := ih (a + 1) (by omega) (by omega) (by omega)
        (fun k hk1 hk2 => hok k (by omega) hk2)
      obtain ⟨ih1, ih2, ih3, ih4, ih5⟩ := hIH
      refine ⟨?_, ?_, ?_, ?_, ?_⟩
      · simp only [attemptCount, List.countP_append, List.countP_cons] at ih1 ⊢
        simp [Event.isAttempt] at ih1 ⊢
        omega
      · simp only [terminalCount, List.countP_append, List.countP_cons] at ih2 ⊢
        simp [Event.isTerminal] at ih2 ⊢
        omega
      · intro j hj
        simp only [List.append_assoc, List.mem_append] at hj
        rcases hj with hj | hj | hj | hj
        · simp [Event.isAttempt] at hj
          omega
        · simp at hj
        · simp at hj
        · have := ih3 j hj
          omega
      · intro k hak hkr hke j hkj hj
        have hka : ¬ k = a := by
          intro hk
          subst hk
          rw [hE, herrs] at hke
          exact absurd hke (by simp)
        simp only [List.append_assoc, List.mem_append] at hj
        rcases hj with hj | hj | hj | hj
        · simp [Event.isAttempt] at hj
          omega
        · simp at hj
        · simp at hj
        · exact absurd hj (ih4 k (by omega) hkr hke j hkj)
      · intro hall
        obtain ⟨pre', hpre', hres'⟩ := ih5 (fun k hk1 hk2 => hall k (by omega) hk2)
        refine ⟨[Event.attempt a, Event.generating (genMsg a r), Event.validating validatingMsg,
          Event.failed (failedMsg errors.length) errors, Event.correcting correctingMsg] ++ pre',
          ?_, ?_⟩
        · rw [List.append_assoc]
          rw [hpre']
          simp
        · exact hres'

/-- C1 counterexample: the claim quantifies over every sequence of
generator outputs, but when an attempt's output is the bare integer `5`
the validator raises `TypeError` (see C2) and the event stream ends with
no terminal event at all — here with retry ceiling 1: zero terminal
events and an escaped exception. -/
theorem c1_counterexample :
    terminalCount
      (orchestrate_agentic_loop [] (fun _ _ => pyOfString "5") (pyOfString "x") 1 []).1 = 0 ∧
    attemptCount
      (orchestrate_agentic_loop [] (fun _ _ => pyOfString "5") (pyOfString "x") 1 []).1 = 1 ∧
    (orchestrate_agentic_loop [] (fun _ _ => pyOfString "5") (pyOfString "x") 1 []).2 =
      .raised .typeError := by
  have h5 : CodeValidator.validate [] (pyOfString "5") = .error .typeError := rfl
  unfold orchestrate_agentic_loop
  rw [loopFrom, if_neg (by omega)]
  simp only [h5]
  refine ⟨?_, ?_, ?_⟩ <;> first | rfl | trivial

/-- C1 (amended): provided validation returns normally on every generator
output (the validator can instead raise — see C2 and the counterexample),
for every retry ceiling `r ≥ 1` and every generation oracle the event
sequence of `orchestrate_agentic_loop` contains at most `r` `attempt`
events and exactly one terminal event; and whenever validation passes on
attempt `k ≤ r` (its error list is empty), no `attempt` event beyond `k`
is emitted. -/
theorem c1_loop_bounded_and_terminal (tokens : List (PyStr × PyStr))
    (llm : Nat → PyStr → PyStr) (user_prompt : PyStr) (history : List PyStr)
    (r : Nat) (hr : 1 ≤ r)
    (hok : ∀ a p, ∃ res, CodeValidator.validate tokens (llm a p) = .ok res) :
    attemptCount (orchestrate_agentic_loop tokens llm user_prompt (r : Int) history).1 ≤ r ∧
    terminalCount (orchestrate_agentic_loop tokens llm user_prompt (r : Int) history).1 = 1 ∧
    (∀ k, 1 ≤ k → k ≤ r →
      errsAtD tokens llm (build_prompt tokens (fullPrompt user_prompt history)) k = [] →
      ∀ j, k < j →
        Event.attempt j ∉
          (orchestrate_agentic_loop tokens llm user_prompt (r : Int) history).1) := by
  have hrun := loopFrom_run tokens llm (build_prompt tokens (fullPrompt user_prompt history))
    r (r - 1) 1 rfl le_rfl hr
    (fun k _ _ => hok k (promptAt tokens llm (build_prompt tokens (fullPrompt user_prompt history)) k))
  obtain ⟨h1', h2', h3', h4', -⟩ := hrun
  have hinit : promptAt tokens llm (build_prompt tokens (fullPrompt user_prompt history)) 1 =
      build_prompt tokens (fullPrompt user_prompt history) := rfl
  have horch : orchestrate_agentic_loop tokens llm user_prompt (r : Int) history =
      loopFrom tokens llm r 1
        (promptAt tokens llm (build_prompt tokens (fullPrompt user_prompt history)) 1) := by
    unfold orchestrate_agentic_loop
    rw [hinit]
    norm_num
  rw [horch]
  exact ⟨by omega, h2', fun k hk1 hkr hke j hkj => h4' k hk1 hkr hke j hkj⟩

/-- C1 witness: ceiling 2 and an oracle always producing a valid
artifact — one attempt, one terminal event, and (validation having
passed on attempt 1) no attempt event beyond 1. -/
theorem c1_loop_bounded_and_terminal_witness :
    (1 ≤ 2) ∧
    (attemptCount
      (orchestrate_agentic_loop []
        (fun _ _ => pyOfString "\x7b\"html\":\"x\",\"typescript\":\"y\",\"css\":\"\"\x7d")
        (pyOfString "req") ((2 : Nat) : Int) []).1 ≤ 2 ∧
    terminalCount
      (orchestrate_agentic_loop []
        (fun _ _ => pyOfString "\x7b\"html\":\"x\",\"typescript\":\"y\",\"css\":\"\"\x7d")
        (pyOfString "req") ((2 : Nat) : Int) []).1 = 1 ∧
    (∀ k, 1 ≤ k → k ≤ 2 →
      errsAtD [] (fun _ _ => pyOfString "\x7b\"html\":\"x\",\"typescript\":\"y\",\"css\":\"\"\x7d")
        (build_prompt [] (fullPrompt (pyOfString "req") [])) k = [] →
      ∀ j, k < j →
        Event.attempt j ∉
          (orchestrate_agentic_loop []
            (fun _ _ => pyOfString "\x7b\"html\":\"x\",\"typescript\":\"y\",\"css\":\"\"\x7d")
            (pyOfString "req") ((2 : Nat) : Int) []).1)) :=
  ⟨by decide,
   c1_loop_bounded_and_terminal []
     (fun _ _ => pyOfString "\x7b\"html\":\"x\",\"typescript\":\"y\",\"css\":\"\"\x7d")
     (pyOfString "req") [] 2 (by decide) (fun _ _ => ⟨_, rfl⟩)⟩

/-- C7: if every attempt's validation returns `Invalid` (a normal return
with a nonempty error list), the run ends with a `failed` event followed
directly by the terminal `max_retries` event, and the terminal payload is
exactly the partial artifact of the last attempt's outcome (which is
absent when the last failure was a parse failure), not that of any
earlier attempt. -/
theorem c7_exhaustion_payload (tokens : List (PyStr × PyStr))
    (llm : Nat → PyStr → PyStr) (user_prompt : PyStr) (history : List PyStr)
    (r : Nat) (hr : 1 ≤ r)
    (hinv : ∀ k, 1 ≤ k → k ≤ r → ∃ errs art,
      outcomeAt tokens llm (build_prompt tokens (fullPrompt user_prompt history)) k =
        .ok (errs, art) ∧ errs ≠ []) :
    ∃ pre,
      (orchestrate_agentic_loop tokens llm user_prompt (r : Int) history).1 =
        pre ++
          [Event.failed
            (failedMsg (errsAtD tokens llm
              (build_prompt tokens (fullPrompt user_prompt history)) r).length)
            (errsAtD tokens llm (build_prompt tokens (fullPrompt user_prompt history)) r),
           Event.max_retries maxRetriesMsg
            (artAtD tokens llm (build_prompt tokens (fullPrompt user_prompt history)) r)] ∧
      (orchestrate_agentic_loop tokens llm user_prompt (r : Int) history).2 =
        .finished (artAtD tokens llm (build_prompt tokens (fullPrompt user_prompt history)) r) := by
  have hrun := loopFrom_run tokens llm (build_prompt tokens (fullPrompt user_prompt history))
    r (r - 1) 1 rfl le_rfl hr
    (fun k hk1 hk2 => by
      obtain ⟨errs, art, hout, -⟩ := hinv k hk1 hk2
      exact ⟨(errs, art), hout⟩)
  obtain ⟨-, -, -, -, h5'⟩ := hrun
  have hall : ∀ k, 1 ≤ k → k ≤ r →
      errsAtD tokens llm (build_prompt tokens (fullPrompt user_prompt history)) k ≠ [] := by
    intro k hk1 hk2
    obtain ⟨errs, art, hout, hne⟩ := hinv k hk1 hk2
    rw [errsAtD_of_outcome hout]
    exact hne
  have hinit : promptAt tokens llm (build_prompt tokens (fullPrompt user_prompt history)) 1 =
      build_prompt tokens (fullPrompt user_prompt history) := rfl
  have horch : orchestrate_agentic_loop tokens llm user_prompt (r : Int) history =
      loopFrom tokens llm r 1
        (promptAt tokens llm (build_prompt tokens (fullPrompt user_prompt history)) 1) := by
    unfold orchestrate_agentic_loop
    rw [hinit]
    norm_num
  rw [horch]
  exact h5' hall

/-- C7 witness: ceiling 1 with an oracle returning unparsable text —
`failed` then `max_retries`, whose payload is the (absent) partial
artifact of the last attempt. -/
theorem c7_exhaustion_payload_witness :
    (∀ k, 1 ≤ k → k ≤ 1 → ∃ errs art,
      outcomeAt [] (fun _ _ => pyOfString "not json")
        (build_prompt [] (fullPrompt (pyOfString "req") [])) k = .ok (errs, art) ∧ errs ≠ []) ∧
    (∃ pre,
      (orchestrate_agentic_loop [] (fun _ _ => pyOfString "not json")
        (pyOfString "req") ((1 : Nat) : Int) []).1 =
        pre ++
          [Event.failed
            (failedMsg (errsAtD [] (fun _ _ => pyOfString "not json")
              (build_prompt [] (fullPrompt (pyOfString "req") [])) 1).length)
            (errsAtD [] (fun _ _ => pyOfString "not json")
              (build_prompt [] (fullPrompt (pyOfString "req") [])) 1),
           Event.max_retries maxRetriesMsg
            (artAtD [] (fun _ _ => pyOfString "not json")
              (build_prompt [] (fullPrompt (pyOfString "req") [])) 1)] ∧
      (orchestrate_agentic_loop [] (fun _ _ => pyOfString "not json")
        (pyOfString "req") ((1 : Nat) : Int) []).2 =
        .finished (artAtD [] (fun _ _ => pyOfString "not json")
          (build_prompt [] (fullPrompt (pyOfString "req") [])) 1)) := by
  have hinv : ∀ k, 1 ≤ k → k ≤ 1 → ∃ errs art,
      outcomeAt [] (fun _ _ => pyOfString "not json")
        (build_prompt [] (fullPrompt (pyOfString "req") [])) k = .ok (errs, art) ∧ errs ≠ [] := by
    intro k hk1 hk2
    have : k = 1 := by omega
    subst this
    exact ⟨[CodeValidator.invalidJsonMsg], none, rfl, by decide⟩
  exact ⟨hinv,
    c7_exhaustion_payload [] (fun _ _ => pyOfString "not json") (pyOfString "req") [] 1
      (by decide) hinv⟩

/-- C8 counterexample: with retry ceiling 0 the orchestrator neither
signals rejection nor behaves as with ceiling 1 — `range(1, 1)` is empty,
so the run yields no events at all (zero attempts, zero terminal events,
no exception) and returns no artifact, while ceiling 1 performs one
attempt and one terminal event. -/
theorem c8_counterexample :
    orchestrate_agentic_loop [] (fun _ _ => pyOfString "not json") (pyOfString "x") 0 [] =
      ([], .finished none) ∧
    attemptCount
      (orchestrate_agentic_loop [] (fun _ _ => pyOfString "not json")
        (pyOfString "x") 1 []).1 = 1 ∧
    terminalCount
      (orchestrate_agentic_loop [] (fun _ _ => pyOfString "not json")
        (pyOfString "x") 1 []).1 = 1 := by
  refine ⟨?_, ?_⟩
  · unfold orchestrate_agentic_loop
    rw [loopFrom, if_pos (by decide)]
  · have hv : CodeValidator.validate []
        (pyOfString "not json") = .ok ([CodeValidator.invalidJsonMsg], none) := rfl
    unfold orchestrate_agentic_loop
    rw [loopFrom, if_neg (by omega)]
    simp only [hv]
    refine ⟨rfl, rfl⟩

/-- C8 (amended): a retry ceiling of 0 or a negative value is neither
rejected nor clamped: `for attempt in range(1, max_retries + 1)` simply
runs zero iterations, so the orchestrator emits no events (in particular
no attempt and no terminal event) and finishes with no artifact. -/
theorem c8_nonpositive_ceiling_noop (tokens : List (PyStr × PyStr))
    (llm : Nat → PyStr → PyStr) (user_prompt : PyStr) (history : List PyStr)
    (m : Int) (hm : m ≤ 0) :
    orchestrate_agentic_loop tokens llm user_prompt m history = ([], .finished none) := by
  unfold orchestrate_agentic_loop
  rw [loopFrom, if_pos]
  omega

/-- C8 witness: ceiling `-2` evaluated. -/
theorem c8_nonpositive_ceiling_noop_witness :
    ((-2 : Int) ≤ 0) ∧
    orchestrate_agentic_loop [] (fun _ _ => pyOfString "not json") (pyOfString "x") (-2) [] =
      ([], .finished none) :=
  ⟨by decide,
   c8_nonpositive_ceiling_noop [] (fun _ _ => pyOfString "not json") (pyOfString "x") [] (-2)
     (by decide)⟩

/-! ## Substring facts for `containsSub` (Python `in`) -/

theorem containsSub_nil (h : PyStr) : containsSub h [] = true := by
  cases h <;> simp [containsSub, List.isPrefixOf]

theorem containsSub_of_isPrefixOf {h n : PyStr} (hp : n.isPrefixOf h = true) :
    containsSub h n = true := by
  cases h with
  | nil =>
    cases n with
    | nil => rfl
    | cons c t => simp [List.isPrefixOf] at hp
  | cons c t => simp [containsSub, hp]

theorem containsSub_cons {h n : PyStr} (c : Nat) (hc : containsSub h n = true) :
    containsSub (c :: h) n = true := by
  simp [containsSub, hc]

theorem containsSub_append_left (a : PyStr) {h n : PyStr} (hc : containsSub h n = true) :
    containsSub (a ++ h) n = true := by
  induction a with
  | nil => simpa using hc
  | cons c t ih => exact containsSub_cons c ih

theorem isPrefixOf_append_right {n h : PyStr} (hp : n.isPrefixOf h = true) (b : PyStr) :
    n.isPrefixOf (h ++ b) = true := by
  rw [List.isPrefixOf_iff_prefix] at hp ⊢
  exact hp.trans (List.prefix_append h b)

theorem containsSub_append_right {h n : PyStr} (hc : containsSub h n = true) (b : PyStr) :
    containsSub (h ++ b) n = true := by
  induction h with
  | nil =>
    simp [containsSub] at hc
    rw [hc]
    exact containsSub_nil _
  | cons c t ih =>
    simp only [containsSub, Bool.or_eq_true] at hc
    rcases hc with hc | hc
    · show containsSub (c :: (t ++ b)) n = true
      have := isPrefixOf_append_right hc b
      rw [List.cons_append] at this
      simp only [containsSub, this, Bool.true_or]
    · exact containsSub_cons c (ih hc)

theorem containsSub_of_infix (a b n : PyStr) : containsSub (a ++ (n ++ b)) n = true := by
  apply containsSub_append_left a
  cases n with
  | nil => exact containsSub_nil _
  | cons c t =>
    apply containsSub_of_isPrefixOf
    rw [List.isPrefixOf_iff_prefix]
    exact List.prefix_append (c :: t) b

/-! ## Claims about the offline generator (`generator.py`) -/

set_option maxRecDepth 400000 in
theorem promptMid_split :
    promptMid = pyOfString "\n\nCONSTRAINTS:\n1. Use Tailwind CSS for all layout and custom styling.\n2. Use Angular Material components (MatCard, Mat" ++ (pyOfString "Button" ++ pyOfString ", MatInput, etc.) where helpful.\n3. Use ONLY the hex codes, fonts, and spacing from the Design System above.\n4. Output MUST be a valid JSON object with exactly these keys:\n   - \"html\": The Angular HTML template string. IMPORTANT: Ensure the template uses static placeholder text (e.g., \"12:00 PM\") instead of empty Angular interpolation (e.g., \"\x7b currentTime \x7d\") so it looks good in a static preview.\n   - \"css\": Any extra custom CSS string (can be empty string \"\").\n   - \"typescript\": The Angular TypeScript component class string.\n5. Do NOT output any markdown, code fences, or explanation. Raw JSON ONLY.\n\nUSER REQUEST: ") := by
  decide

/-- Every prompt built by `build_prompt` mentions `MatButton` in its fixed
constraints text, so its lower-casing always contains `"button"`. -/
theorem buildPrompt_contains_button (tokens : List (PyStr × PyStr)) (u : PyStr) :
    containsSub (pyLower (build_prompt tokens u)) (pyOfString "button") = true := by
  unfold build_prompt
  rw [promptMid_split]
  simp only [pyLower, List.map_append, List.append_assoc]
  apply containsSub_append_left
  apply containsSub_append_left
  apply containsSub_append_left
  rw [show List.map lowerCp (pyOfString "Button") = pyOfString "button" from by decide]
  apply containsSub_of_isPrefixOf
  rw [List.isPrefixOf_iff_prefix]
  exact List.prefix_append _ _

theorem buildPrompt_anyIn_button (tokens : List (PyStr × PyStr)) (u : PyStr) :
    anyIn (pyLower (build_prompt tokens u)) ["button", "btn", "cta"] = true := by
  simp [anyIn, List.any_cons, buildPrompt_contains_button tokens u]

set_option maxRecDepth 400000 in
/-- C9 counterexample: with no provider configured, empty design tokens
and the keyword-free request `"x"`, the raw output produced for the
orchestrator is not the default login-category artifact (which
`_mock_for_prompt` would produce for the request text alone): the
generated selector is `app-buttons`, because the keyword scan runs over
the full built prompt and the prompt template itself contains
`MatButton`. -/
theorem c9_counterexample :
    (call_llm_no_clients [] (build_prompt [] (fullPrompt (pyOfString "x") []))
        == mock_for_prompt [] (pyOfString "x")) = false ∧
    (mockChoice (pyLower (build_prompt [] (fullPrompt (pyOfString "x") [])))
      (pyOfString "#6366f1") (pyOfString "rgba(255,255,255,0.1)") (pyOfString "8px")).2.2 =
      pyOfString "app-buttons" := by
  constructor
  · decide
  · decide

/-- C9 (amended): with no provider configured, `call_llm` falls back to
the deterministic offline mock keyed on category keywords — but scanned
over the whole built prompt, whose fixed template mentions `MatButton`:
its lower-casing always contains `"button"`, so for every request whose
built prompt contains none of the register/navbar/dashboard/profile
category keywords the output is the button-showcase artifact built from
the design tokens actually present; the default login-category artifact
is unreachable through `build_prompt`. -/
theorem c9_mock_fallback_is_button (tokens : List (PyStr × PyStr))
    (user_prompt : PyStr) (history : List PyStr)
    (h1 : anyIn (pyLower (build_prompt tokens (fullPrompt user_prompt history)))
      ["register", "signup", "sign up", "create account"] = false)
    (h2 : anyIn (pyLower (build_prompt tokens (fullPrompt user_prompt history)))
      ["navbar", "navigation", "nav bar", "header", "topbar"] = false)
    (h3 : anyIn (pyLower (build_prompt tokens (fullPrompt user_prompt history)))
      ["dashboard", "stats", "analytics", "overview", "metric"] = false)
    (h4 : anyIn (pyLower (build_prompt tokens (fullPrompt user_prompt history)))
      ["profile", "user card", "avatar", "account"] = false) :
    call_llm_no_clients tokens (build_prompt tokens (fullPrompt user_prompt history)) =
      dumpsFlat
        [(pyOfString "html",
          buttonHtml (mockTokens tokens).1 (mockTokens tokens).2.2.1),
         (pyOfString "css",
          mockCss (pyOfString "ButtonShowcaseComponent") (mockTokens tokens).1
            (mockTokens tokens).2.2.2),
         (pyOfString "typescript",
          mockTs (pyOfString "app-buttons") (pyOfString "ButtonShowcaseComponent"))] := by
  unfold call_llm_no_clients mock_for_prompt
  simp only [mockChoice, h1, h2, h3, h4,
    buildPrompt_anyIn_button tokens (fullPrompt user_prompt history),
    Bool.false_eq_true, if_false, if_true, if_pos, mockTokens]

set_option maxRecDepth 400000 in
/-- C9 witness: empty tokens, request `"x"`, no history. -/
theorem c9_mock_fallback_is_button_witness :
    (anyIn (pyLower (build_prompt [] (fullPrompt (pyOfString "x") [])))
      ["register", "signup", "sign up", "create account"] = false) ∧
    call_llm_no_clients [] (build_prompt [] (fullPrompt (pyOfString "x") [])) =
      dumpsFlat
        [(pyOfString "html",
          buttonHtml (mockTokens []).1 (mockTokens []).2.2.1),
         (pyOfString "css",
          mockCss (pyOfString "ButtonShowcaseComponent") (mockTokens []).1
            (mockTokens []).2.2.2),
         (pyOfString "typescript",
          mockTs (pyOfString "app-buttons") (pyOfString "ButtonShowcaseComponent"))] :=
  ⟨by decide,
   c9_mock_fallback_is_button [] (pyOfString "x") [] (by decide) (by decide) (by decide)
     (by decide)⟩


/-! ## Round-tripping `json.dumps` output through the scanner -/

theorem hexValN_hexDig : ∀ d, d < 16 → hexValN (hexDig d) = d := by decide

theorem readHex4_cons (a b c d : Nat) (r : List Nat) :
    readHex4 (a :: b :: c :: d :: r) =
      (if hexValN a < 16 ∧ hexValN b < 16 ∧ hexValN c < 16 ∧ hexValN d < 16 then
        some (((hexValN a * 16 + hexValN b) * 16 + hexValN c) * 16 + hexValN d, r)
      else none) := rfl

theorem readHex4_hex4 (n : Nat) (hn : n < 65536) (r : List Nat) :
    readHex4 (hex4 n ++ r) = some (n, r) := by
  show readHex4 (hexDig (n / 4096) :: hexDig (n / 256 % 16) :: hexDig (n / 16 % 16) ::
    hexDig (n % 16) :: r) = some (n, r)
  rw [readHex4_cons]
  rw [hexValN_hexDig _ (by omega), hexValN_hexDig _ (by omega), hexValN_hexDig _ (by omega),
    hexValN_hexDig _ (by omega)]
  rw [if_pos ⟨by omega, by omega, by omega, by omega⟩]
  congr 2
  omega

theorem escape_nil : escape [] = [] := rfl

theorem escape_cons (c : Nat) (s : PyStr) : escape (c :: s) = escChar c ++ escape s := by
  simp [escape]

theorem psa_step (f : Nat) (acc : PyStr) (c : Nat) (rest : List Nat) :
    parseStrAux (f + 1) acc (c :: rest) =
      (if c = 34 then some (acc.reverse, rest)
      else if c = 92 then
        match rest with
        | [] => none
        | e :: r1 =>
          if e = 117 then
            match readHex4 r1 with
            | none => none
            | some nr =>
              if 0xD800 ≤ nr.1 ∧ nr.1 ≤ 0xDBFF then
                match readLowSur nr.2 with
                | none => parseStrAux f (nr.1 :: acc) nr.2
                | some mr =>
                  parseStrAux f ((0x10000 + (nr.1 - 0xD800) * 0x400 + (mr.1 - 0xDC00)) :: acc)
                    mr.2
              else parseStrAux f (nr.1 :: acc) nr.2
          else
            if escDecode e < 0x110000 then parseStrAux f (escDecode e :: acc) r1 else none
      else if c < 32 then none
      else parseStrAux f (c :: acc) rest) := rfl

theorem psa_quote (f : Nat) (acc : PyStr) (t : List Nat) :
    parseStrAux (f + 1) acc (34 :: t) = some (acc.reverse, t) := rfl

theorem psa_lit (f : Nat) (acc : PyStr) (c : Nat) (t : List Nat)
    (h34 : ¬ c = 34) (h92 : ¬ c = 92) (h32 : ¬ c < 32) :
    parseStrAux (f + 1) acc (c :: t) = parseStrAux f (c :: acc) t := by
  rw [psa_step, if_neg h34, if_neg h92, if_neg h32]

theorem psa_backslash (f : Nat) (acc : PyStr) (e : Nat) (t : List Nat) :
    parseStrAux (f + 1) acc (92 :: e :: t) =
      (if e = 117 then psaEsc f acc (readHex4 t)
       else if escDecode e < 0x110000 then parseStrAux f (escDecode e :: acc) t
       else none) := rfl

theorem psa_esc_short (f : Nat) (acc : PyStr) (e : Nat) (t : List Nat)
    (hu : ¬ e = 117) (hok : escDecode e < 0x110000) :
    parseStrAux (f + 1) acc (92 :: e :: t) = parseStrAux f (escDecode e :: acc) t := by
  rw [psa_backslash, if_neg hu, if_pos hok]

theorem psaEsc_some (f : Nat) (acc : PyStr) (n : Nat) (r2 : List Nat) :
    psaEsc f acc (some (n, r2)) =
      (if 0xD800 ≤ n ∧ n ≤ 0xDBFF then psaLow f acc n (readLowSur r2) r2
       else parseStrAux f (n :: acc) r2) := rfl

theorem psaLow_some (f : Nat) (acc : PyStr) (n m : Nat) (r2 r3 : List Nat) :
    psaLow f acc n (some (m, r3)) r2 =
      parseStrAux f ((0x10000 + (n - 0xD800) * 0x400 + (m - 0xDC00)) :: acc) r3 := rfl

theorem psa_u_bmp (f : Nat) (acc : PyStr) (n : Nat) (t : List Nat)
    (hn : n < 65536) (hlow : ¬ (0xD800 ≤ n ∧ n ≤ 0xDBFF)) :
    parseStrAux (f + 1) acc (92 :: 117 :: (hex4 n ++ t)) = parseStrAux f (n :: acc) t := by
  rw [psa_backslash, if_pos rfl, readHex4_hex4 n hn t, psaEsc_some, if_neg hlow]

theorem readLowSur_cons (r : List Nat) :
    readLowSur (92 :: 117 :: r) = lowCheck (readHex4 r) := rfl

theorem lowCheck_some (m : Nat) (r : List Nat) :
    lowCheck (some (m, r)) = (if 0xDC00 ≤ m ∧ m ≤ 0xDFFF then some (m, r) else none) := rfl

theorem psa_u_pair (f : Nat) (acc : PyStr) (c : Nat) (t : List Nat)
    (hc1 : 0x10000 ≤ c) (hc2 : c < 0x110000) :
    parseStrAux (f + 1) acc
      (92 :: 117 :: (hex4 (0xD800 + (c - 0x10000) / 1024) ++
        (92 :: 117 :: (hex4 (0xDC00 + (c - 0x10000) % 1024) ++ t)))) =
    parseStrAux f (c :: acc) t := by
  have hn1 : 0xD800 + (c - 0x10000) / 1024 < 65536 := by omega
  have hn2 : 0xDC00 + (c - 0x10000) % 1024 < 65536 := by omega
  have hlow : readLowSur (92 :: 117 :: (hex4 (0xDC00 + (c - 0x10000) % 1024) ++ t)) =
      some (0xDC00 + (c - 0x10000) % 1024, t) := by
    rw [readLowSur_cons, readHex4_hex4 _ hn2, lowCheck_some,
      if_pos ⟨by omega, by omega⟩]
  rw [psa_backslash, if_pos rfl, readHex4_hex4 _ hn1, psaEsc_some,
    if_pos ⟨(by omega : (0xD800 : Nat) ≤ 0xD800 + (c - 0x10000) / 1024), by omega⟩,
    hlow, psaLow_some]
  have heq : 0x10000 + (0xD800 + (c - 0x10000) / 1024 - 0xD800) * 0x400 +
      (0xDC00 + (c - 0x10000) % 1024 - 0xDC00) = c := by omega
  rw [heq]

theorem lenAux_go (l : List Nat) : ∀ n, lenAux n l = n + l.length := by
  induction l with
  | nil => intro n; simp [lenAux]
  | cons c rest ih => intro n; rw [lenAux, ih]; simp [List.length_cons]; omega

theorem lenAux_len (l : List Nat) : lenAux 0 l = l.length := by
  rw [lenAux_go]; omega

theorem escChar_ne_nil (c : Nat) : escChar c ≠ [] := by
  unfold escChar
  repeat' split
  all_goals simp [hex4]

theorem escape_length_ge (s : PyStr) : s.length ≤ (escape s).length := by
  induction s with
  | nil => simp [escape]
  | cons c rest ih =>
    rw [escape_cons]
    have h1 : 1 ≤ (escChar c).length := by
      cases he : escChar c with
      | nil => exact absurd he (escChar_ne_nil c)
      | cons a l => simp
    simp only [List.length_append, List.length_cons]
    omega

/-- `json.loads`'s string scanner inverts `json.dumps`'s string encoder on
every Python string of valid scalars (the core of the mock-output
roundtrip). -/
theorem parseStr_escape (s : PyStr) : ∀ (f : Nat) (acc : PyStr) (t : List Nat),
    wfStr s = true → s.length + 1 ≤ f →
    parseStrAux f acc (escape s ++ (34 :: t)) = some (acc.reverse ++ s, t) := by
  induction s with
  | nil =>
    intro f acc t _ hf
    obtain ⟨f1, rfl⟩ : ∃ f1, f = f1 + 1 := ⟨f - 1, by omega⟩
    rw [escape_nil, List.nil_append, psa_quote, List.append_nil]
  | cons c s ih =>
    intro f acc t hwf hf
    obtain ⟨f1, rfl⟩ : ∃ f1, f = f1 + 1 := ⟨f - 1, by omega⟩
    have hok : okScalar c = true := by
      simp only [wfStr, List.all_cons, Bool.and_eq_true] at hwf
      exact hwf.1
    have hwf2 : wfStr s = true := by
      simp only [wfStr, List.all_cons, Bool.and_eq_true] at hwf
      exact hwf.2
    have hf2 : s.length + 1 ≤ f1 := by simp only [List.length_cons] at hf; omega
    have hrange : c < 55296 ∨ (57344 ≤ c ∧ c < 1114112) := by
      simpa [okScalar, Bool.or_eq_true, Bool.and_eq_true, decide_eq_true_eq] using hok
    have hfin : ∀ acc2, parseStrAux f1 acc2 (escape s ++ (34 :: t)) =
        some (acc2.reverse ++ s, t) := fun acc2 => ih f1 acc2 t hwf2 hf2
    rw [escape_cons, List.append_assoc]
    by_cases h34 : c = 34
    · subst h34
      rw [show escChar 34 = [92, 34] from rfl]
      simp only [List.cons_append, List.nil_append]
      rw [psa_esc_short f1 acc 34 _ (by omega) (by decide),
        show escDecode 34 = 34 from rfl, hfin]
      simp
    · by_cases h92 : c = 92
      · subst h92
        rw [show escChar 92 = [92, 92] from rfl]
        simp only [List.cons_append, List.nil_append]
        rw [psa_esc_short f1 acc 92 _ (by omega) (by decide),
          show escDecode 92 = 92 from rfl, hfin]
        simp
      · by_cases hpr : 32 ≤ c ∧ c ≤ 126
        · have he : escChar c = [c] := by
            unfold escChar
            rw [if_neg h34, if_neg h92, if_neg (by omega), if_neg (by omega),
              if_neg (by omega), if_neg (by omega), if_neg (by omega), if_pos hpr]
          rw [he]
          simp only [List.cons_append, List.nil_append]
          rw [psa_lit f1 acc c _ h34 h92 (by omega), hfin]
          simp
        · by_cases h10 : c = 10
          · subst h10
            rw [show escChar 10 = [92, 110] from rfl]
            simp only [List.cons_append, List.nil_append]
            rw [psa_esc_short f1 acc 110 _ (by omega) (by decide),
              show escDecode 110 = 10 from rfl, hfin]
            simp
          · by_cases h13 : c = 13
            · subst h13
              rw [show escChar 13 = [92, 114] from rfl]
              simp only [List.cons_append, List.nil_append]
              rw [psa_esc_short f1 acc 114 _ (by omega) (by decide),
                show escDecode 114 = 13 from rfl, hfin]
              simp
            · by_cases h9 : c = 9
              · subst h9
                rw [show escChar 9 = [92, 116] from rfl]
                simp only [List.cons_append, List.nil_append]
                rw [psa_esc_short f1 acc 116 _ (by omega) (by decide),
                  show escDecode 116 = 9 from rfl, hfin]
                simp
              · by_cases h8 : c = 8
                · subst h8
                  rw [show escChar 8 = [92, 98] from rfl]
                  simp only [List.cons_append, List.nil_append]
                  rw [psa_esc_short f1 acc 98 _ (by omega) (by decide),
                    show escDecode 98 = 8 from rfl, hfin]
                  simp
                · by_cases h12 : c = 12
                  · subst h12
                    rw [show escChar 12 = [92, 102] from rfl]
                    simp only [List.cons_append, List.nil_append]
                    rw [psa_esc_short f1 acc 102 _ (by omega) (by decide),
                      show escDecode 102 = 12 from rfl, hfin]
                    simp
                  · by_cases hbmp : c < 65536
                    · have he : escChar c = 92 :: 117 :: hex4 c := by
                        unfold escChar
                        rw [if_neg h34, if_neg h92, if_neg h10, if_neg h13, if_neg h9,
                          if_neg h8, if_neg h12, if_neg hpr, if_pos hbmp]
                      rw [he]
                      simp only [List.cons_append]
                      rw [psa_u_bmp f1 acc c _ hbmp (by omega), hfin]
                      simp
                    · have he : escChar c =
                          (92 :: 117 :: hex4 (0xD800 + (c - 0x10000) / 0x400)) ++
                            (92 :: 117 :: hex4 (0xDC00 + (c - 0x10000) % 0x400)) := by
                        unfold escChar
                        rw [if_neg h34, if_neg h92, if_neg h10, if_neg h13, if_neg h9,
                          if_neg h8, if_neg h12, if_neg hpr, if_neg hbmp]
                      rw [he]
                      simp only [List.cons_append, List.append_assoc]
                      rw [psa_u_pair f1 acc c _ (by omega) (by omega), hfin]
                      simp

theorem skipWs_32 (r : List Nat) : skipWs (32 :: r) = skipWs r := rfl

theorem skipWs_34 (r : List Nat) : skipWs (34 :: r) = 34 :: r := rfl

theorem pv_obj (f : Nat) (rest : List Nat) :
    parseVal (f + 1) (123 :: rest) = parseMembers f (skipWs rest) [] := rfl

theorem pv_str (f : Nat) (rest : List Nat) :
    parseVal (f + 1) (34 :: rest) = pvStr (parseStrAux (lenAux 0 rest + 1) [] rest) := rfl

theorem pvStr_some (p : PyStr) (r : List Nat) : pvStr (some (p, r)) = some (Json.str p, r) := rfl

theorem pm_quote (f : Nat) (acc : List (PyStr × Json)) (r : List Nat) :
    parseMembers (f + 1) (34 :: r) acc = pmKey f acc (parseStrAux (lenAux 0 r + 1) [] r) := rfl

theorem pmKey_some (f : Nat) (acc : List (PyStr × Json)) (k : PyStr) (s2 : List Nat) :
    pmKey f acc (some (k, s2)) = pmAfterKey f acc k s2 := rfl

theorem pmAfterKey_58 (f : Nat) (acc : List (PyStr × Json)) (k : PyStr) (r2 : List Nat) :
    pmAfterKey f acc k (58 :: r2) = pmVal f acc k (parseVal f (skipWs r2)) := rfl

theorem pmVal_some (f : Nat) (acc : List (PyStr × Json)) (k : PyStr) (j : Json)
    (s3 : List Nat) : pmVal f acc k (some (j, s3)) = pmAfterVal f acc k j s3 := rfl

theorem pmAfterVal_44 (f : Nat) (acc : List (PyStr × Json)) (k : PyStr) (j : Json)
    (r3 : List Nat) :
    pmAfterVal f acc k j (44 :: r3) = parseMembers f (skipWs r3) (acc ++ [(k, j)]) := rfl

theorem pmAfterVal_125 (f : Nat) (acc : List (PyStr × Json)) (k : PyStr) (j : Json)
    (t : List Nat) :
    pmAfterVal f acc k j (125 :: t) = some (Json.obj (acc ++ [(k, j)]), t) := rfl

theorem joinSep_single (sep x : PyStr) : joinSep sep [x] = x := rfl

theorem joinSep_cons2 (sep x y : PyStr) (ys : List PyStr) :
    joinSep sep (x :: y :: ys) = x ++ sep ++ joinSep sep (y :: ys) := rfl

theorem memberDump_shape (k v : PyStr) (X : List Nat) :
    memberDump (k, v) ++ X =
      34 :: (escape k ++ (34 :: 58 :: 32 :: 34 :: (escape v ++ (34 :: X)))) := by
  simp [memberDump, encStr, List.cons_append, List.append_assoc]

/-- Scanning one dumped `"key": "value"` member consumes it exactly. -/
theorem pm_one_member (f : Nat) (acc : List (PyStr × Json)) (k v : PyStr) (X : List Nat)
    (hk : wfStr k = true) (hv : wfStr v = true) (hf : 1 ≤ f) :
    parseMembers (f + 1) (memberDump (k, v) ++ X) acc = pmAfterVal f acc k (Json.str v) X := by
  obtain ⟨f1, rfl⟩ : ∃ f1, f = f1 + 1 := ⟨f - 1, by omega⟩
  rw [memberDump_shape, pm_quote, lenAux_len]
  rw [parseStr_escape k _ [] _ hk (by
    simp only [List.length_append, List.length_cons]
    have := escape_length_ge k
    omega)]
  simp only [List.reverse_nil, List.nil_append]
  rw [pmKey_some, pmAfterKey_58, skipWs_32, skipWs_34, pv_str, lenAux_len]
  rw [parseStr_escape v _ [] _ hv (by
    simp only [List.length_append, List.length_cons]
    have := escape_length_ge v
    omega)]
  simp only [List.reverse_nil, List.nil_append]
  rw [pvStr_some, pmVal_some]

theorem skipWs_joinSep_md (kv : PyStr × PyStr) (ms : List PyStr) (Y : List Nat) :
    skipWs (joinSep [44, 32] (memberDump kv :: ms) ++ Y) =
      joinSep [44, 32] (memberDump kv :: ms) ++ Y := by
  obtain ⟨k, v⟩ := kv
  cases ms with
  | nil =>
    rw [joinSep_single, memberDump_shape, skipWs_34]
  | cons m2 ms2 =>
    rw [joinSep_cons2]
    simp only [List.append_assoc, List.cons_append, List.nil_append]
    rw [memberDump_shape, skipWs_34]

/-- `json.loads`'s member scanner inverts `json.dumps`'s flat object body
(all values strings of valid scalars). -/
theorem parseMembers_dump (kvs : List (PyStr × PyStr)) :
    ∀ (f : Nat) (acc : List (PyStr × Json)) (t : List Nat),
    (∀ kv ∈ kvs, wfStr kv.1 = true ∧ wfStr kv.2 = true) →
    kvs.length + 1 ≤ f → kvs ≠ [] →
    parseMembers f (joinSep [44, 32] (kvs.map memberDump) ++ (125 :: t)) acc =
      some (Json.obj (acc ++ kvs.map (fun kv => (kv.1, Json.str kv.2))), t) := by
  induction kvs with
  | nil => intro f acc t _ _ hne; exact absurd rfl hne
  | cons kv kvs ih =>
    intro f acc t hwf hb _
    obtain ⟨k, v⟩ := kv
    obtain ⟨f0, rfl⟩ : ∃ f0, f = f0 + 1 := ⟨f - 1, by omega⟩
    have hkv := hwf (k, v) (by simp)
    have hf0 : 1 ≤ f0 := by simp only [List.length_cons] at hb; omega
    cases kvs with
    | nil =>
      rw [List.map_cons, List.map_nil, joinSep_single]
      rw [pm_one_member f0 acc k v _ hkv.1 hkv.2 hf0, pmAfterVal_125]
      simp
    | cons kv2 kvs2 =>
      rw [List.map_cons, List.map_cons, joinSep_cons2]
      simp only [List.append_assoc, List.cons_append, List.nil_append]
      rw [pm_one_member f0 acc k v _ hkv.1 hkv.2 hf0, pmAfterVal_44, skipWs_32]
      rw [skipWs_joinSep_md, ← List.map_cons]
      rw [ih f0 (acc ++ [(k, Json.str v)]) t
        (fun kv2 hm => hwf kv2 (by simp [hm]))
        (by simp only [List.length_cons] at hb ⊢; omega) (by simp)]
      simp

theorem joinSep_md_len (kvs : List (PyStr × PyStr)) :
    kvs.length ≤ (joinSep [44, 32] (kvs.map memberDump)).length + 1 := by
  induction kvs with
  | nil => simp [joinSep]
  | cons kv kvs ih =>
    cases kvs with
    | nil => simp [joinSep]
    | cons kv2 kvs2 =>
      rw [List.map_cons, List.map_cons, joinSep_cons2, ← List.map_cons]
      simp only [List.length_append, List.length_cons] at ih ⊢
      omega

theorem loads_obj (X : List Nat) :
    loads (123 :: X) =
      (match parseMembers (2 * lenAux 0 (123 :: X) + 7) (skipWs X) [] with
       | none => none
       | some p => if (skipWs p.2).isEmpty then some p.1 else none) := rfl

/-- `json.loads` inverts `json.dumps` on nonempty flat objects whose
values are strings of valid scalars. -/
theorem loads_dumpsFlat (kvs : List (PyStr × PyStr))
    (hwf : ∀ kv ∈ kvs, wfStr kv.1 = true ∧ wfStr kv.2 = true) (hne : kvs ≠ []) :
    loads (dumpsFlat kvs) = some (Json.obj (kvs.map (fun kv => (kv.1, Json.str kv.2)))) := by
  obtain ⟨kv0, kvs0, rfl⟩ : ∃ a l, kvs = a :: l := by
    cases kvs with
    | nil => exact absurd rfl hne
    | cons a l => exact ⟨a, l, rfl⟩
  rw [show dumpsFlat (kv0 :: kvs0) =
    123 :: (joinSep [44, 32] ((kv0 :: kvs0).map memberDump) ++ [125]) from rfl]
  rw [loads_obj]
  rw [List.map_cons, skipWs_joinSep_md, ← List.map_cons]
  have hB : (kv0 :: kvs0).length + 1 ≤
      2 * lenAux 0 (123 :: (joinSep [44, 32] ((kv0 :: kvs0).map memberDump) ++ [125])) + 7 := by
    rw [lenAux_len]
    have := joinSep_md_len (kv0 :: kvs0)
    simp only [List.length_cons, List.length_append] at this ⊢
    omega
  rw [parseMembers_dump (kv0 :: kvs0) _ [] [] hwf hB (by simp)]
  rfl

/-! ## The mock output survives fence stripping and whitespace stripping -/

theorem fsa_cons (f c : Nat) (rest : List Nat) :
    fenceSubAux (f + 1) (c :: rest) =
      (if [96, 96, 96, 106, 115, 111, 110, 10].isPrefixOf (c :: rest) then
        fenceSubAux f ((c :: rest).drop 8)
      else if [96, 96, 96, 106, 115, 111, 110].isPrefixOf (c :: rest) then
        fenceSubAux f ((c :: rest).drop 7)
      else if [10, 96, 96, 96].isPrefixOf (c :: rest) then
        fenceSubAux f ((c :: rest).drop 4)
      else if [96, 96, 96].isPrefixOf (c :: rest) then
        fenceSubAux f ((c :: rest).drop 3)
      else c :: fenceSubAux f rest) := rfl

theorem isPrefixOf_mem {pre s : List Nat} (hp : pre.isPrefixOf s = true) {x : Nat}
    (hx : x ∈ pre) : x ∈ s :=
  (List.isPrefixOf_iff_prefix.mp hp).subset hx

/-- On backtick-free text, the markdown-fence substitution never fires. -/
theorem fenceSubAux_noop : ∀ (f : Nat) (s : List Nat), 96 ∉ s → fenceSubAux f s = s := by
  intro f
  induction f with
  | zero => intro s _; rfl
  | succ f ih =>
    intro s h
    cases s with
    | nil => rfl
    | cons c rest =>
      rw [fsa_cons,
        if_neg (fun hp => h (isPrefixOf_mem hp (by decide))),
        if_neg (fun hp => h (isPrefixOf_mem hp (by decide))),
        if_neg (fun hp => h (isPrefixOf_mem hp (by decide))),
        if_neg (fun hp => h (isPrefixOf_mem hp (by decide))),
        ih rest (fun hm => h (List.mem_cons_of_mem c hm))]

theorem fenceSub_noop {s : List Nat} (h : 96 ∉ s) : fenceSub s = s :=
  fenceSubAux_noop _ s h

/-- `str.strip()` leaves `{...}` text unchanged. -/
theorem pyStrip_wrapped (m : List Nat) : pyStrip (123 :: (m ++ [125])) = 123 :: (m ++ [125]) := by
  unfold pyStrip
  rw [show List.dropWhile pySpace (123 :: (m ++ [125])) = 123 :: (m ++ [125]) from rfl]
  rw [List.reverse_cons, List.reverse_append]
  rw [show (([125] : List Nat).reverse ++ m.reverse) ++ [123] =
    125 :: (m.reverse ++ [123]) from by simp]
  rw [show List.dropWhile pySpace (125 :: (m.reverse ++ [123])) =
    125 :: (m.reverse ++ [123]) from rfl]
  simp

/-! ## Character hygiene of the `json.dumps` encoder -/

theorem hexDig_ne96 (d : Nat) : hexDig d ≠ 96 := by
  unfold hexDig; split <;> omega

theorem hex4_no96 (n : Nat) : (96 : Nat) ∉ hex4 n := by
  intro hm
  simp only [hex4, List.mem_cons, List.not_mem_nil, or_false] at hm
  rcases hm with h | h | h | h <;> exact hexDig_ne96 _ h.symm

theorem escChar_no96 {c : Nat} (h : c ≠ 96) : (96 : Nat) ∉ escChar c := by
  intro hm
  unfold escChar at hm
  repeat' split at hm
  · exact absurd hm (by decide)
  · exact absurd hm (by decide)
  · exact absurd hm (by decide)
  · exact absurd hm (by decide)
  · exact absurd hm (by decide)
  · exact absurd hm (by decide)
  · exact absurd hm (by decide)
  · simp only [List.mem_cons, List.not_mem_nil, or_false] at hm
    omega
  · simp only [List.mem_cons] at hm
    rcases hm with h1 | h1 | h1
    · omega
    · omega
    · exact hex4_no96 _ h1
  · simp only [List.mem_append, List.mem_cons] at hm
    rcases hm with (h1 | h1 | h1) | (h1 | h1 | h1)
    · omega
    · omega
    · exact hex4_no96 _ h1
    · omega
    · omega
    · exact hex4_no96 _ h1

theorem mockSafe_mem {s : PyStr} (h : s.all mockSafe = true) : ∀ c ∈ s, mockSafe c = true := by
  simpa [List.all_eq_true] using h

theorem mockSafe_wf {s : PyStr} (h : s.all mockSafe = true) : wfStr s = true := by
  simp only [wfStr, List.all_eq_true]
  intro c hc
  have := mockSafe_mem h c hc
  simp only [mockSafe, Bool.and_eq_true] at this
  exact this.1

theorem escape_no96 {s : PyStr} (h : s.all mockSafe = true) : (96 : Nat) ∉ escape s := by
  intro hm
  unfold escape at hm
  rcases List.mem_flatMap.mp hm with ⟨c, hc, hmem⟩
  have hs := mockSafe_mem h c hc
  have hcne : c ≠ 96 := by
    intro he
    subst he
    exact absurd hs (by decide)
  exact escChar_no96 hcne hmem

/-! ## Bracket counting and emptiness -/

theorem count_zero_of_balancedFree {s : PyStr} (h : balancedFree s = true) :
    s.count 123 = 0 ∧ s.count 125 = 0 ∧ s.count 40 = 0 ∧ s.count 41 = 0 := by
  simp only [balancedFree, Bool.and_eq_true, Bool.not_eq_true'] at h
  obtain ⟨⟨⟨h1, h2⟩, h3⟩, h4⟩ := h
  simp at h1 h2 h3 h4
  exact ⟨List.count_eq_zero.mpr h1, List.count_eq_zero.mpr h2,
    List.count_eq_zero.mpr h3, List.count_eq_zero.mpr h4⟩

theorem isEmpty_append_left (a b : PyStr) (h : a.isEmpty = false) :
    (a ++ b).isEmpty = false := by
  cases a with
  | nil => simp [List.isEmpty] at h
  | cons c t => rfl

/-! ## The validator on the parsed mock document -/

theorem requiredPart_ok (kvs : List (PyStr × Json)) (part : String) (v : Json)
    (hl : lookupLast kvs (pyOfString part) = some v) (ht : v.truthy = true) :
    CodeValidator.requiredPart (Json.obj kvs) part = .ok [] := by
  unfold CodeValidator.requiredPart
  have hany : kvs.any (fun kv => kv.1 = pyOfString part) = true := by
    rw [← lookupLast_isSome_eq_any, hl]; rfl
  have hget := pyGetItem_of_lookupLast hl
  simp [pyIn, hany, hget, ht, Bind.bind, Except.bind, pure, Except.pure]

theorem cssCheck_ok (kvs : List (PyStr × Json)) (v : Json)
    (hl : lookupLast kvs (pyOfString "css") = some v) :
    CodeValidator.cssCheck (Json.obj kvs) = .ok [] := by
  unfold CodeValidator.cssCheck
  have hany : kvs.any (fun kv => kv.1 = pyOfString "css") = true := by
    rw [← lookupLast_isSome_eq_any, hl]; rfl
  simp [pyIn, hany, Bind.bind, Except.bind, pure, Except.pure]

theorem requiredErrors_mockDoc (H C T : PyStr) (hh : H.isEmpty = false)
    (ht : T.isEmpty = false) :
    CodeValidator.requiredErrors (mockDoc H C T) = .ok [] := by
  have h1 : CodeValidator.requiredPart (mockDoc H C T) "html" = .ok [] :=
    requiredPart_ok _ _ (Json.str H) rfl (by simp [Json.truthy, hh])
  have h2 : CodeValidator.requiredPart (mockDoc H C T) "typescript" = .ok [] :=
    requiredPart_ok _ _ (Json.str T) rfl (by simp [Json.truthy, ht])
  have h3 : CodeValidator.cssCheck (mockDoc H C T) = .ok [] :=
    cssCheck_ok _ (Json.str C) rfl
  unfold CodeValidator.requiredErrors
  rw [h1, h2, h3]
  rfl

theorem check_syntax_mockDoc (H C T : PyStr)
    (h1 : T.count 123 = T.count 125) (h2 : T.count 40 = T.count 41)
    (h3 : C.count 123 = C.count 125) (h4 : C.count 40 = C.count 41) :
    CodeValidator.check_syntax (mockDoc H C T) = .ok [] := by
  have hts : (lookupLast [(pyOfString "html", Json.str H), (pyOfString "css", Json.str C),
      (pyOfString "typescript", Json.str T)] (pyOfString "typescript")).getD (Json.str []) =
      Json.str T := rfl
  have hcs : (lookupLast [(pyOfString "html", Json.str H), (pyOfString "css", Json.str C),
      (pyOfString "typescript", Json.str T)] (pyOfString "css")).getD (Json.str []) =
      Json.str C := rfl
  unfold CodeValidator.check_syntax CodeValidator.syntaxErrsFor
  simp only [mockDoc, dictGet, hts, hcs, pyCountChar, Bind.bind, Except.bind, pure, Except.pure]
  simp [h1, h2, h3, h4]

theorem check_design_mockDoc (tokens : List (PyStr × PyStr)) (H C T : PyStr)
    (hcont : (pyLower (toksGet tokens (pyOfString "primary-color") [])).isEmpty = false →
      containsSub (pyLower (H ++ C)) (pyLower (toksGet tokens (pyOfString "primary-color") [])) =
        true) :
    CodeValidator.check_design_compliance tokens (mockDoc H C T) = .ok [] := by
  have hh : (lookupLast [(pyOfString "html", Json.str H), (pyOfString "css", Json.str C),
      (pyOfString "typescript", Json.str T)] (pyOfString "html")).getD (Json.str []) =
      Json.str H := rfl
  have hcs : (lookupLast [(pyOfString "html", Json.str H), (pyOfString "css", Json.str C),
      (pyOfString "typescript", Json.str T)] (pyOfString "css")).getD (Json.str []) =
      Json.str C := rfl
  unfold CodeValidator.check_design_compliance
  simp only [mockDoc, dictGet, hh, hcs, pyAdd, pyLowerVal, Bind.bind, Except.bind, pure,
    Except.pure]
  cases he : (pyLower (toksGet tokens (pyOfString "primary-color") [])).isEmpty with
  | true => simp [he]
  | false => simp [he, hcont he]

theorem validateParsed_mockDoc (tokens : List (PyStr × PyStr)) (H C T : PyStr)
    (h1 : CodeValidator.requiredErrors (mockDoc H C T) = .ok [])
    (h2 : CodeValidator.check_syntax (mockDoc H C T) = .ok [])
    (h3 : CodeValidator.check_design_compliance tokens (mockDoc H C T) = .ok []) :
    CodeValidator.validateParsed tokens (mockDoc H C T) = .ok ([], some (mockDoc H C T)) := by
  unfold CodeValidator.validateParsed
  rw [h1]
  simp [h2, h3, Bind.bind, Except.bind, pure, Except.pure]

/-- The mock `css` text always embeds the primary token value. -/
theorem design_in_css (H cls primary font : PyStr) :
    containsSub (pyLower (H ++ mockCss cls primary font)) (pyLower primary) = true := by
  have base := containsSub_of_infix
    (pyLower H ++ (pyLower (pyOfString "/* ") ++ (pyLower cls ++
      pyLower (pyOfString " styles — using "))))
    (pyLower (pyOfString " primary token */ * \x7b font-family: ") ++
      (pyLower font ++ pyLower (pyOfString "; \x7d")))
    (pyLower primary)
  simpa [mockCss, pyLower, List.map_append, List.append_assoc] using base

theorem toksGet_eq_or (tokens : List (PyStr × PyStr)) (key d1 d2 : PyStr) :
    (toksGet tokens key d1 = d1 ∧ toksGet tokens key d2 = d2) ∨
      toksGet tokens key d1 = toksGet tokens key d2 := by
  unfold toksGet
  cases tokens.find? (fun kv => kv.1 = key) with
  | none => exact Or.inl ⟨rfl, rfl⟩
  | some kv => exact Or.inr rfl

theorem mockCss_safe (cls primary font : PyStr) (h1 : cls.all mockSafe = true)
    (h2 : primary.all mockSafe = true) (h3 : font.all mockSafe = true) :
    (mockCss cls primary font).all mockSafe = true := by
  simp only [mockCss, List.all_append, h1, h2, h3, Bool.and_true, Bool.true_and]
  decide

theorem mockCss_counts (cls primary font : PyStr)
    (hc : cls.count 123 = 0 ∧ cls.count 125 = 0 ∧ cls.count 40 = 0 ∧ cls.count 41 = 0)
    (hp : primary.count 123 = 0 ∧ primary.count 125 = 0 ∧ primary.count 40 = 0 ∧
      primary.count 41 = 0)
    (hf : font.count 123 = 0 ∧ font.count 125 = 0 ∧ font.count 40 = 0 ∧ font.count 41 = 0) :
    (mockCss cls primary font).count 123 = (mockCss cls primary font).count 125 ∧
    (mockCss cls primary font).count 40 = (mockCss cls primary font).count 41 := by
  obtain ⟨c1, c2, c3, c4⟩ := hc
  obtain ⟨p1, p2, p3, p4⟩ := hp
  obtain ⟨f1, f2, f3, f4⟩ := hf
  simp only [mockCss, List.count_append, c1, c2, c3, c4, p1, p2, p3, p4, f1, f2, f3, f4]
  constructor <;> decide

/-! ## Per-branch facts about the mock templates -/

set_option maxRecDepth 200000 in
theorem registerHtml_ok (p b r : PyStr) (hp : p.all mockSafe = true)
    (hb : b.all mockSafe = true) (hr : r.all mockSafe = true) :
    (registerHtml p b r).all mockSafe = true ∧ (registerHtml p b r).isEmpty = false := by
  constructor
  · simp only [registerHtml, List.all_append, hp, hb, hr, Bool.and_true, Bool.true_and]
    decide
  · unfold registerHtml
    repeat' apply isEmpty_append_left
    decide

set_option maxRecDepth 200000 in
theorem navbarHtml_ok (p r : PyStr) (hp : p.all mockSafe = true)
    (hr : r.all mockSafe = true) :
    (navbarHtml p r).all mockSafe = true ∧ (navbarHtml p r).isEmpty = false := by
  constructor
  · simp only [navbarHtml, List.all_append, hp, hr, Bool.and_true, Bool.true_and]
    decide
  · unfold navbarHtml
    repeat' apply isEmpty_append_left
    decide

set_option maxRecDepth 200000 in
theorem dashboardHtml_ok (p r : PyStr) (hp : p.all mockSafe = true)
    (hr : r.all mockSafe = true) :
    (dashboardHtml p r).all mockSafe = true ∧ (dashboardHtml p r).isEmpty = false := by
  constructor
  · simp only [dashboardHtml, List.all_append, hp, hr, Bool.and_true, Bool.true_and]
    decide
  · unfold dashboardHtml
    repeat' apply isEmpty_append_left
    decide

set_option maxRecDepth 200000 in
theorem profileHtml_ok (p b r : PyStr) (hp : p.all mockSafe = true)
    (hb : b.all mockSafe = true) (hr : r.all mockSafe = true) :
    (profileHtml p b r).all mockSafe = true ∧ (profileHtml p b r).isEmpty = false := by
  constructor
  · simp only [profileHtml, List.all_append, hp, hb, hr, Bool.and_true, Bool.true_and]
    decide
  · unfold profileHtml
    repeat' apply isEmpty_append_left
    decide

set_option maxRecDepth 200000 in
theorem buttonHtml_ok (p r : PyStr) (hp : p.all mockSafe = true)
    (hr : r.all mockSafe = true) :
    (buttonHtml p r).all mockSafe = true ∧ (buttonHtml p r).isEmpty = false := by
  constructor
  · simp only [buttonHtml, List.all_append, hp, hr, Bool.and_true, Bool.true_and]
    decide
  · unfold buttonHtml
    repeat' apply isEmpty_append_left
    decide

set_option maxRecDepth 200000 in
theorem loginHtml_ok (p b r title : PyStr) (hp : p.all mockSafe = true)
    (hb : b.all mockSafe = true) (hr : r.all mockSafe = true)
    (hti : title.all mockSafe = true) :
    (loginHtml p b r title).all mockSafe = true ∧ (loginHtml p b r title).isEmpty = false := by
  constructor
  · simp only [loginHtml, List.all_append, hp, hb, hr, hti, Bool.and_true, Bool.true_and]
    decide
  · unfold loginHtml
    repeat' apply isEmpty_append_left
    decide

theorem tsOk_spec {cls sel : PyStr} (h : tsOk cls sel = true) :
    (mockTs sel cls).all mockSafe = true ∧ (mockTs sel cls).isEmpty = false ∧
    (mockTs sel cls).count 123 = (mockTs sel cls).count 125 ∧
    (mockTs sel cls).count 40 = (mockTs sel cls).count 41 ∧
    cls.all mockSafe = true ∧
    (cls.count 123 = 0 ∧ cls.count 125 = 0 ∧ cls.count 40 = 0 ∧ cls.count 41 = 0) := by
  simp only [tsOk, Bool.and_eq_true, beq_iff_eq, Bool.not_eq_true'] at h
  obtain ⟨⟨⟨⟨⟨⟨⟨⟨ha, hb⟩, hc⟩, hd⟩, he⟩, hf⟩, hg⟩, hh⟩, hi⟩ := h
  exact ⟨ha, hb, hc, hd, he, hf, hg, hh, hi⟩

set_option maxRecDepth 200000 in
/-- Whatever branch the keyword cascade picks, the chosen html template is
made of safe characters and nonempty, and the `(ts_class, ts_selector)`
pair satisfies `tsOk`. -/
theorem mockChoice_ok (p primary bg radius : PyStr)
    (hp : primary.all mockSafe = true) (hb : bg.all mockSafe = true)
    (hr : radius.all mockSafe = true) :
    ((mockChoice p primary bg radius).1.all mockSafe = true ∧
      (mockChoice p primary bg radius).1.isEmpty = false) ∧
    tsOk (mockChoice p primary bg radius).2.1 (mockChoice p primary bg radius).2.2 = true := by
  simp only [mockChoice]
  repeat' split
  · exact ⟨registerHtml_ok primary bg radius hp hb hr,
      (by decide : tsOk (pyOfString "RegisterComponent") (pyOfString "app-register") = true)⟩
  · exact ⟨navbarHtml_ok primary radius hp hr,
      (by decide : tsOk (pyOfString "NavbarComponent") (pyOfString "app-navbar") = true)⟩
  · exact ⟨dashboardHtml_ok primary radius hp hr,
      (by decide : tsOk (pyOfString "DashboardComponent") (pyOfString "app-dashboard") = true)⟩
  · exact ⟨profileHtml_ok primary bg radius hp hb hr,
      (by decide : tsOk (pyOfString "ProfileComponent") (pyOfString "app-profile") = true)⟩
  · exact ⟨buttonHtml_ok primary radius hp hr,
      (by decide : tsOk (pyOfString "ButtonShowcaseComponent") (pyOfString "app-buttons") = true)⟩
  · exact ⟨loginHtml_ok primary bg radius _ hp hb hr (by decide),
      (by decide : tsOk (pyOfString "LoginComponent") (pyOfString "app-login") = true)⟩
  · exact ⟨loginHtml_ok primary bg radius _ hp hb hr (by decide),
      (by decide : tsOk (pyOfString "LoginComponent") (pyOfString "app-login") = true)⟩

theorem dumpsFlat3 (k1 v1 k2 v2 k3 v3 : PyStr) :
    dumpsFlat [(k1, v1), (k2, v2), (k3, v3)] =
      123 :: ((memberDump (k1, v1) ++ [44, 32] ++
        (memberDump (k2, v2) ++ [44, 32] ++ memberDump (k3, v3))) ++ [125]) := rfl

/-- The full mock artifact — any safe html, the mock css and typescript
fields — passes `validate` with no errors and the parsed document as
artifact. -/
theorem validate_mockDoc (tokens : List (PyStr × PyStr)) (H cls sel primary font : PyStr)
    (hprel : toksGet tokens (pyOfString "primary-color") (pyOfString "#6366f1") = primary)
    (hH : H.all mockSafe = true) (hHne : H.isEmpty = false) (hts : tsOk cls sel = true)
    (hp : primary.all mockSafe = true) (hpb : balancedFree primary = true)
    (hf : font.all mockSafe = true) (hfb : balancedFree font = true) :
    CodeValidator.validate tokens
      (dumpsFlat [(pyOfString "html", H), (pyOfString "css", mockCss cls primary font),
        (pyOfString "typescript", mockTs sel cls)]) =
      .ok ([], some (mockDoc H (mockCss cls primary font) (mockTs sel cls))) := by
  obtain ⟨t1, t2, t3, t4, t5, t6⟩ := tsOk_spec hts
  have hCsafe : (mockCss cls primary font).all mockSafe = true := mockCss_safe cls primary font t5 hp hf
  have hk1 : (96 : Nat) ∉ escape (pyOfString "html") := by decide
  have hk2 : (96 : Nat) ∉ escape (pyOfString "css") := by decide
  have hk3 : (96 : Nat) ∉ escape (pyOfString "typescript") := by decide
  have hv1 : (96 : Nat) ∉ escape H := escape_no96 hH
  have hv2 : (96 : Nat) ∉ escape (mockCss cls primary font) := escape_no96 hCsafe
  have hv3 : (96 : Nat) ∉ escape (mockTs sel cls) := escape_no96 t1
  have h96 : (96 : Nat) ∉ dumpsFlat [(pyOfString "html", H),
      (pyOfString "css", mockCss cls primary font),
      (pyOfString "typescript", mockTs sel cls)] := by
    intro hm
    rw [dumpsFlat3] at hm
    simp [memberDump, encStr, hv1, hv2, hv3, hk1, hk2, hk3] at hm
  have hclean : pyStrip (fenceSub (dumpsFlat [(pyOfString "html", H),
      (pyOfString "css", mockCss cls primary font),
      (pyOfString "typescript", mockTs sel cls)])) =
      dumpsFlat [(pyOfString "html", H), (pyOfString "css", mockCss cls primary font),
        (pyOfString "typescript", mockTs sel cls)] := by
    rw [fenceSub_noop h96, dumpsFlat3]
    exact pyStrip_wrapped _
  have hwfkv : ∀ kv ∈ [(pyOfString "html", H),
      (pyOfString "css", mockCss cls primary font),
      (pyOfString "typescript", mockTs sel cls)], wfStr kv.1 = true ∧ wfStr kv.2 = true := by
    intro kv hm
    simp only [List.mem_cons, List.not_mem_nil, or_false] at hm
    rcases hm with rfl | rfl | rfl
    · exact ⟨(by decide : wfStr (pyOfString "html") = true), mockSafe_wf hH⟩
    · exact ⟨(by decide : wfStr (pyOfString "css") = true), mockSafe_wf hCsafe⟩
    · exact ⟨(by decide : wfStr (pyOfString "typescript") = true), mockSafe_wf t1⟩
  have hload : loads (pyStrip (fenceSub (dumpsFlat [(pyOfString "html", H),
      (pyOfString "css", mockCss cls primary font),
      (pyOfString "typescript", mockTs sel cls)]))) =
      some (mockDoc H (mockCss cls primary font) (mockTs sel cls)) := by
    rw [hclean, loads_dumpsFlat _ hwfkv (by simp)]
    simp [mockDoc]
  have hreq : CodeValidator.requiredErrors
      (mockDoc H (mockCss cls primary font) (mockTs sel cls)) = .ok [] :=
    requiredErrors_mockDoc _ _ _ hHne t2
  have hcounts := mockCss_counts cls primary font t6
    (count_zero_of_balancedFree hpb) (count_zero_of_balancedFree hfb)
  have hsyn : CodeValidator.check_syntax
      (mockDoc H (mockCss cls primary font) (mockTs sel cls)) = .ok [] :=
    check_syntax_mockDoc _ _ _ t3 t4 hcounts.1 hcounts.2
  have hdes : CodeValidator.check_design_compliance tokens
      (mockDoc H (mockCss cls primary font) (mockTs sel cls)) = .ok [] := by
    apply check_design_mockDoc
    intro hne
    rcases toksGet_eq_or tokens (pyOfString "primary-color") [] (pyOfString "#6366f1") with
      ⟨hd1, _⟩ | heq
    · rw [hd1] at hne
      simp [pyLower] at hne
    · rw [heq, hprel]
      exact design_in_css _ _ _ _
  have hparsed := validateParsed_mockDoc tokens _ _ _ hreq hsyn hdes
  simp [CodeValidator.validate, hload]
  exact hparsed

theorem mock_output_eq (tokens : List (PyStr × PyStr)) (prompt : PyStr) :
    mock_for_prompt tokens prompt =
      dumpsFlat [(pyOfString "html",
        (mockChoice (pyLower prompt) (mockTokens tokens).1 (mockTokens tokens).2.1
          (mockTokens tokens).2.2.1).1),
        (pyOfString "css", mockCss
          (mockChoice (pyLower prompt) (mockTokens tokens).1 (mockTokens tokens).2.1
            (mockTokens tokens).2.2.1).2.1
          (mockTokens tokens).1 (mockTokens tokens).2.2.2),
        (pyOfString "typescript", mockTs
          (mockChoice (pyLower prompt) (mockTokens tokens).1 (mockTokens tokens).2.1
            (mockTokens tokens).2.2.1).2.2
          (mockChoice (pyLower prompt) (mockTokens tokens).1 (mockTokens tokens).2.1
            (mockTokens tokens).2.2.1).2.1)] := rfl

/-- C10 (amended): for every prompt and every design system whose four
recognized token values (`primary-color`, `glass-background`,
`border-radius`, `font-family`) consist of valid Unicode scalars, contain
no backtick, and contain no curly brace or parenthesis, the offline mock
generator's output passes validation as `Valid` (fields present and
non-empty, braces and parentheses balanced in `typescript` and `css`,
primary color embedded in `html`/`css`); hence an orchestration run with
no configured providers emits `Success` on attempt 1 with the parsed
artifact.  (Without the no-backtick/scalar proviso the claim fails: see
the counterexample, where the fence stripper mangles a brace-free token
value.) -/
theorem c10_mock_always_valid (tokens : List (PyStr × PyStr))
    (hp : (mockTokens tokens).1.all mockSafe = true)
    (hpb : balancedFree (mockTokens tokens).1 = true)
    (hb : (mockTokens tokens).2.1.all mockSafe = true)
    (hbb : balancedFree (mockTokens tokens).2.1 = true)
    (hr : (mockTokens tokens).2.2.1.all mockSafe = true)
    (hrb : balancedFree (mockTokens tokens).2.2.1 = true)
    (hf : (mockTokens tokens).2.2.2.all mockSafe = true)
    (hfb : balancedFree (mockTokens tokens).2.2.2 = true) :
    (∀ prompt : PyStr, ∃ d : Json,
      CodeValidator.validate tokens (call_llm_no_clients tokens prompt) = .ok ([], some d)) ∧
    (∀ (user_prompt : PyStr) (conversation_history : List PyStr) (max_retries : Int),
      1 ≤ max_retries → ∃ d : Json,
      orchestrate_agentic_loop tokens (fun _ p => call_llm_no_clients tokens p)
          user_prompt max_retries conversation_history =
        ([Event.attempt 1, Event.generating (genMsg 1 max_retries.toNat),
          Event.validating validatingMsg, Event.success successMsg (some d)],
         .finished (some d))) := by
  have hval : ∀ prompt : PyStr, ∃ d : Json,
      CodeValidator.validate tokens (call_llm_no_clients tokens prompt) = .ok ([], some d) := by
    intro prompt
    obtain ⟨⟨hH, hHne⟩, hts⟩ := mockChoice_ok (pyLower prompt) _ _ _ hp hb hr
    refine ⟨mockDoc
      (mockChoice (pyLower prompt) (mockTokens tokens).1 (mockTokens tokens).2.1
        (mockTokens tokens).2.2.1).1
      (mockCss (mockChoice (pyLower prompt) (mockTokens tokens).1 (mockTokens tokens).2.1
          (mockTokens tokens).2.2.1).2.1
        (mockTokens tokens).1 (mockTokens tokens).2.2.2)
      (mockTs (mockChoice (pyLower prompt) (mockTokens tokens).1 (mockTokens tokens).2.1
          (mockTokens tokens).2.2.1).2.2
        (mockChoice (pyLower prompt) (mockTokens tokens).1 (mockTokens tokens).2.1
          (mockTokens tokens).2.2.1).2.1), ?_⟩
    rw [show call_llm_no_clients tokens prompt = mock_for_prompt tokens prompt from rfl,
      mock_output_eq]
    exact validate_mockDoc tokens _ _ _ _ _ rfl hH hHne hts hp hpb hf hfb
  refine ⟨hval, ?_⟩
  intro up hist mr hmr
  obtain ⟨d, hd⟩ := hval (build_prompt tokens (fullPrompt up hist))
  refine ⟨d, ?_⟩
  show loopFrom tokens (fun _ p => call_llm_no_clients tokens p) mr.toNat 1
      (build_prompt tokens (fullPrompt up hist)) = _
  rw [loopFrom, if_neg (by omega : ¬ mr.toNat < 1)]
  simp [hd]

/-- C10 witness: a fully configured design system with plain token values
(`#111`, `white`, `8px`, `Arial`) satisfies the amended hypotheses, and
every prompt's mock output validates cleanly. -/
theorem c10_mock_always_valid_witness :
    ((mockTokens [(pyOfString "primary-color", pyOfString "#111"),
        (pyOfString "glass-background", pyOfString "white"),
        (pyOfString "border-radius", pyOfString "8px"),
        (pyOfString "font-family", pyOfString "Arial")]).1.all mockSafe = true ∧
      balancedFree (mockTokens [(pyOfString "primary-color", pyOfString "#111"),
        (pyOfString "glass-background", pyOfString "white"),
        (pyOfString "border-radius", pyOfString "8px"),
        (pyOfString "font-family", pyOfString "Arial")]).1 = true) ∧
    (∀ prompt : PyStr, ∃ d : Json,
      CodeValidator.validate [(pyOfString "primary-color", pyOfString "#111"),
        (pyOfString "glass-background", pyOfString "white"),
        (pyOfString "border-radius", pyOfString "8px"),
        (pyOfString "font-family", pyOfString "Arial")]
        (call_llm_no_clients [(pyOfString "primary-color", pyOfString "#111"),
          (pyOfString "glass-background", pyOfString "white"),
          (pyOfString "border-radius", pyOfString "8px"),
          (pyOfString "font-family", pyOfString "Arial")] prompt) = .ok ([], some d)) :=
  ⟨⟨by decide, by decide⟩,
    (c10_mock_always_valid
      [(pyOfString "primary-color", pyOfString "#111"),
       (pyOfString "glass-background", pyOfString "white"),
       (pyOfString "border-radius", pyOfString "8px"),
       (pyOfString "font-family", pyOfString "Arial")]
      (by decide) (by decide) (by decide) (by decide)
      (by decide) (by decide) (by decide) (by decide)).1⟩

set_option maxRecDepth 400000 in
/-- C10 counterexample: the claim as stated (only braces and parentheses
excluded from the token values) is false.  With
`primary-color = "#1` ``` `1"` — no brace or parenthesis, but backticks —
the mock embeds the value, the validator's fence stripper then deletes the
backtick run from the raw JSON, and validation rejects the result, so the
mock output does not validate even though every token value is
brace/parenthesis-free. -/
theorem c10_counterexample :
    (balancedFree (mockTokens [(pyOfString "primary-color", [35, 49, 96, 96, 96, 49]),
        (pyOfString "glass-background", pyOfString "white"),
        (pyOfString "border-radius", pyOfString "8px"),
        (pyOfString "font-family", pyOfString "Arial")]).1 = true ∧
      balancedFree (mockTokens [(pyOfString "primary-color", [35, 49, 96, 96, 96, 49]),
        (pyOfString "glass-background", pyOfString "white"),
        (pyOfString "border-radius", pyOfString "8px"),
        (pyOfString "font-family", pyOfString "Arial")]).2.1 = true ∧
      balancedFree (mockTokens [(pyOfString "primary-color", [35, 49, 96, 96, 96, 49]),
        (pyOfString "glass-background", pyOfString "white"),
        (pyOfString "border-radius", pyOfString "8px"),
        (pyOfString "font-family", pyOfString "Arial")]).2.2.1 = true ∧
      balancedFree (mockTokens [(pyOfString "primary-color", [35, 49, 96, 96, 96, 49]),
        (pyOfString "glass-background", pyOfString "white"),
        (pyOfString "border-radius", pyOfString "8px"),
        (pyOfString "font-family", pyOfString "Arial")]).2.2.2 = true) ∧
    validationPassed [(pyOfString "primary-color", [35, 49, 96, 96, 96, 49]),
        (pyOfString "glass-background", pyOfString "white"),
        (pyOfString "border-radius", pyOfString "8px"),
        (pyOfString "font-family", pyOfString "Arial")]
      (call_llm_no_clients [(pyOfString "primary-color", [35, 49, 96, 96, 96, 49]),
        (pyOfString "glass-background", pyOfString "white"),
        (pyOfString "border-radius", pyOfString "8px"),
        (pyOfString "font-family", pyOfString "Arial")] (pyOfString "zzz")) = false := by
  constructor
  · exact ⟨by decide, by decide, by decide, by decide⟩
  · decide

end GCA
